import Mathlib

/-
  Verification development for the Hybrid Atomic Router (src/main.py).

  The embedding translates the router module function by function:
  - Python dicts of scalar arguments become association lists (`Args`)
    with Python-dict update semantics (in-place overwrite, append new keys
    at the end, unique keys).
  - Python `re` patterns become `RE` terms interpreted by a small
    backtracking engine (`mtch`) that returns the list of all match states
    in Python's backtracking preference order; `re.search`, `re.match`,
    `re.split`, `re.findall` and `re.sub` are built on top of it.
    Every starred subpattern used by the router consumes at least one
    character per iteration, so the engine's progress guard in `star`
    coincides with Python's empty-repeat rule on these patterns.
    The texts handled here contain no newline, so `$` is modelled as
    end-of-input and `.` as any non-newline character.
  - The two model adapters (`_cactus_call` / FunctionGemma, and
    `generate_cloud` / Gemini) are external boundaries; they are modelled
    as oracles indexed by invocation number and receiving the actual
    arguments, so theorems quantify over every adapter behaviour.
    Latencies and confidences are modelled as rationals.
-/

/-- Scalar JSON-like argument values (tool arguments are scalars per the
data model; Python floats produced by adapters are out of scope of the
claims and are folded into the integer case after coercion). -/
inductive JVal where
  | jstr (s : String)
  | jint (n : Int)
  | jbool (b : Bool)
  | jnull
  deriving DecidableEq, Repr

/-- A Python dict of argument values: insertion-ordered association list
with unique keys. -/
abbrev Args := List (String × JVal)

/-- Dict lookup (`args[k]` / `args.get(k)`). -/
def dget (args : Args) (k : String) : Option JVal :=
  match args with
  | [] => none
  | (k1, v) :: rest => if k1 == k then some v else dget rest k

/-- Dict assignment `args[k] = v`: overwrites in place, appends new keys. -/
def dset (args : Args) (k : String) (v : JVal) : Args :=
  match args with
  | [] => [(k, v)]
  | (k1, v1) :: rest => if k1 == k then (k1, v) :: rest else (k1, v1) :: dset rest k v

/-- A chat message `{role, content}`. -/
structure Message where
  role : String
  content : String
  deriving DecidableEq, Repr

/-- A tool schema, reduced to the fields the router logic reads:
`name` and `parameters.required`. -/
structure Tool where
  name : String
  required : List String
  deriving DecidableEq, Repr

/-- A function call `{name, arguments}`. -/
structure FunctionCall where
  name : String
  arguments : Args
  deriving DecidableEq, Repr

/-- Result shape of `_cactus_call` (the on-device adapter boundary). -/
structure LocalResult where
  function_calls : List FunctionCall
  total_time_ms : Rat
  confidence : Rat
  cloud_handoff : Bool

/-- Result shape of `generate_cloud` (the cloud adapter boundary). -/
structure CloudResult where
  function_calls : List FunctionCall
  total_time_ms : Rat

/-- Adapter behaviours: the k-th on-device call and the k-th cloud call,
as functions of the messages and tools actually passed.  Quantifying over
`Oracles` quantifies over every possible adapter behaviour. -/
structure Oracles where
  localA : Nat → List Message → List Tool → LocalResult
  cloudA : Nat → List Message → List Tool → CloudResult

/-- The router's output record. -/
structure RouteResult where
  function_calls : List FunctionCall
  total_time_ms : Rat
  source : String
  confidence : Rat

/- ── Character/string utilities (Python `str` methods on `List Char`) ── -/

abbrev Chars := List Char

/-- Python `str.strip()` (both ends, whitespace). -/
def pyStrip (s : Chars) : Chars :=
  ((s.dropWhile Char.isWhitespace).reverse.dropWhile Char.isWhitespace).reverse

/-- Python `str.rstrip(cs)`. -/
def pyRstripSet (cs : Chars) (s : Chars) : Chars :=
  (s.reverse.dropWhile (fun c => cs.contains c)).reverse

/-- Python `str.strip(cs)`. -/
def pyStripSet (cs : Chars) (s : Chars) : Chars :=
  ((s.dropWhile (fun c => cs.contains c)).reverse.dropWhile (fun c => cs.contains c)).reverse

/-- Helper for `str.split()`: accumulate the current token. -/
def wsSplitAux : Chars → Chars → List Chars
  | [], acc => if acc.isEmpty then [] else [acc.reverse]
  | c :: cs, acc =>
    if c.isWhitespace then
      if acc.isEmpty then wsSplitAux cs [] else acc.reverse :: wsSplitAux cs []
    else wsSplitAux cs (c :: acc)

/-- Python `str.split()` with no argument: split on whitespace runs,
dropping empties. -/
def wsSplit (s : Chars) : List Chars := wsSplitAux s []

/-- Python `' '.join(toks)`. -/
def joinSpace (toks : List Chars) : Chars :=
  match toks with
  | [] => []
  | [t] => t
  | t :: rest => t ++ ' ' :: joinSpace rest

/-- Lowercase a character list (`str.lower()`). -/
def lowerChars (s : Chars) : Chars := s.map Char.toLower

/-- Uppercase a character list (`str.upper()`). -/
def upperChars (s : Chars) : Chars := s.map Char.toUpper

/-- Digit run to number (`int` on an all-digit string). -/
def listToNat (s : Chars) : Nat :=
  s.foldl (fun a c => a * 10 + (c.toNat - 48)) 0

/-- Python `str.isdigit()` for ASCII content. -/
def isDigits (s : Chars) : Bool := !s.isEmpty && s.all Char.isDigit

/-- Python `int(s)` on strings accepted by the router's digit checks
(optional leading minus, digits). -/
def strToIntLit (s : Chars) : Int :=
  match s with
  | '-' :: rest => -(listToNat rest : Int)
  | _ => (listToNat s : Int)

/-- Decimal digits of a natural number (fuel-based so it reduces in the
kernel). -/
def natDigitsAux : Nat → Nat → Chars → Chars
  | 0, _, acc => acc
  | _ + 1, n, acc =>
    let d := Char.ofNat (n % 10 + 48)
    if n < 10 then d :: acc else natDigitsAux n (n / 10) (d :: acc)

/-- Decimal representation of a natural number (`str(n)` for `n ≥ 0`). -/
def natChars (n : Nat) : Chars := natDigitsAux (n + 1) n []

/-- Python `f"{n:02d}"` for naturals. -/
def pad2 (n : Nat) : Chars := if n < 10 then '0' :: natChars n else natChars n

/-- Truncating float parse: models `int(float(s))` for plain decimal
literals (sign, digits, optional fraction).  Exponent forms and special
floats are not modelled; on them (and on junk, where Python raises and
the router's `except` keeps the old value) the result is `none`. -/
def parseFloatTrunc (s : Chars) : Option Int :=
  let t := pyStrip s
  let (sign, t) : Int × Chars := match t with
    | '-' :: rest => (-1, rest)
    | '+' :: rest => (1, rest)
    | _ => (1, t)
  let intPart := t.takeWhile Char.isDigit
  let rest := t.dropWhile Char.isDigit
  match rest with
  | [] => if intPart.isEmpty then none else some (sign * listToNat intPart)
  | '.' :: frac =>
    if frac.all Char.isDigit && !(intPart.isEmpty && frac.isEmpty) then
      some (sign * listToNat intPart)
    else none
  | _ => none

/- ── Regex engine ── -/

/-- Regular-expression syntax covering the constructs used in the router:
character classes, sequencing, alternation, greedy/lazy star and option,
numbered capture groups, word boundary, end anchor, lookahead. -/
inductive RE where
  | eps
  | cls (p : Char → Bool)
  | seq (a b : RE)
  | alt (a b : RE)
  | star (r : RE) (lzy : Bool)
  | opt (r : RE) (lzy : Bool)
  | grp (n : Nat) (r : RE)
  | wordB
  | strEnd
  | look (r : RE)

/-- Captured groups: group number to captured text (last capture wins,
absent when the group did not participate). -/
abbrev Caps := List (Nat × Chars)

/-- Record a capture (overwrite semantics, as in Python). -/
def capSet (caps : Caps) (n : Nat) (v : Chars) : Caps :=
  match caps with
  | [] => [(n, v)]
  | (m, w) :: rest => if m == n then (m, v) :: rest else (m, w) :: capSet rest n v

/-- Read a capture. -/
def capGet (caps : Caps) (n : Nat) : Option Chars :=
  match caps with
  | [] => none
  | (m, w) :: rest => if m == n then some w else capGet rest n

/-- A matcher state: previous character (for word boundaries), remaining
input, captures so far. -/
structure MSt where
  prev : Option Char
  rest : Chars
  caps : Caps

/-- Is an optional character a word character (for `\b`)? -/
def isWordChar : Option Char → Bool
  | none => false
  | some c => c.isAlphanum || c == '_'

/-- Iterate a repetition body.  `step` yields the states reachable by one
more (character-consuming) iteration in preference order; the result lists
all repetition outcomes, longest-first when greedy, shortest-first when
lazy — exactly Python's backtracking order for bodies that always consume. -/
def starIter {σ : Type} : Nat → (σ → List σ) → Bool → σ → List σ
  | 0, _, _, st => [st]
  | k + 1, step, lzy, st =>
    if lzy then st :: (step st).flatMap (starIter k step lzy)
    else ((step st).flatMap (starIter k step lzy)) ++ [st]

/-- The backtracking matcher: all match states in Python's preference
order (leftmost alternative first, greedy longest-first, lazy
shortest-first). -/
def mtch : RE → MSt → List MSt
  | .eps, st => [st]
  | .cls p, st =>
    match st.rest with
    | [] => []
    | c :: cs => if p c then [⟨some c, cs, st.caps⟩] else []
  | .seq a b, st => (mtch a st).flatMap (mtch b)
  | .alt a b, st => mtch a st ++ mtch b st
  | .star r lzy, st =>
    starIter st.rest.length
      (fun s2 => (mtch r s2).filter (fun s3 => s3.rest.length < s2.rest.length))
      lzy st
  | .opt r lzy, st => if lzy then st :: mtch r st else mtch r st ++ [st]
  | .grp n r, st =>
    (mtch r st).map (fun s2 =>
      ⟨s2.prev, s2.rest, capSet s2.caps n (st.rest.take (st.rest.length - s2.rest.length))⟩)
  | .wordB, st => if isWordChar st.prev != isWordChar st.rest.head? then [st] else []
  | .strEnd, st => if st.rest.isEmpty then [st] else []
  | .look r, st =>
    match mtch r st with
    | [] => []
    | s2 :: _ => [⟨st.prev, st.rest, s2.caps⟩]

/-- First (preferred) match anchored at the current position: consumed
length and captures. -/
def matchHere (r : RE) (prev : Option Char) (s : Chars) : Option (Nat × Caps) :=
  match mtch r ⟨prev, s, []⟩ with
  | [] => none
  | st :: _ => some (s.length - st.rest.length, st.caps)

/-- Scan for the leftmost match (`re.search`): returns
(start position, match length, captures). -/
def searchAux (r : RE) (prev : Option Char) (s : Chars) (pos : Nat) :
    Option (Nat × Nat × Caps) :=
  match matchHere r prev s with
  | some (len, caps) => some (pos, len, caps)
  | none =>
    match s with
    | [] => none
    | c :: cs => searchAux r (some c) cs (pos + 1)

/-- Python `re.search`. -/
def reSearch (r : RE) (s : Chars) : Option (Nat × Nat × Caps) := searchAux r none s 0

/-- Does the pattern occur (`re.search` truthiness)? -/
def reTest (r : RE) (s : Chars) : Bool := (reSearch r s).isSome

/-- Python `re.match` (anchored at the start). -/
def reMatchHead (r : RE) (s : Chars) : Option (Nat × Caps) := matchHere r none s

/-- Group 1 of a search, parsed as a number (`int(m.group(1))`). -/
def searchNat (r : RE) (s : Chars) : Option Nat :=
  match reSearch r s with
  | some (_, _, caps) => some (listToNat ((capGet caps 1).getD []))
  | none => none

/-- Group 1 of a search as text (`m.group(1)`). -/
def searchGrp1 (r : RE) (s : Chars) : Option Chars :=
  match reSearch r s with
  | some (_, _, caps) => some ((capGet caps 1).getD [])
  | none => none

/-- Helper for `re.split` (fuel bounds the number of pieces; the split
patterns of the router never match the empty string, and the zero-length
guard keeps the function total regardless). -/
def reSplitAux : Nat → RE → Option Char → Chars → List Chars
  | 0, _, _, s => [s]
  | f + 1, r, prev, s =>
    match searchAux r prev s 0 with
    | none => [s]
    | some (pos, len, _) =>
      if len == 0 then [s]
      else s.take pos :: reSplitAux f r ((s.take (pos + len)).getLast?) (s.drop (pos + len))

/-- Python `re.split` for group-free patterns. -/
def reSplit (r : RE) (s : Chars) : List Chars := reSplitAux (s.length + 1) r none s

/-- Helper for `re.findall` (whole-match texts, non-overlapping). -/
def reFindAllAux : Nat → RE → Option Char → Chars → List Chars
  | 0, _, _, _ => []
  | f + 1, r, prev, s =>
    match searchAux r prev s 0 with
    | none => []
    | some (pos, len, _) =>
      if len == 0 then []
      else ((s.drop pos).take len) ::
        reFindAllAux f r ((s.take (pos + len)).getLast?) (s.drop (pos + len))

/-- Python `re.findall` for group-free patterns. -/
def reFindAll (r : RE) (s : Chars) : List Chars := reFindAllAux (s.length + 1) r none s

/-- Helper for `re.sub` with a capture-based replacement. -/
def reSubAllAux : Nat → RE → (Caps → Chars) → Option Char → Chars → Chars
  | 0, _, _, _, s => s
  | f + 1, r, repl, prev, s =>
    match searchAux r prev s 0 with
    | none => s
    | some (pos, len, caps) =>
      if len == 0 then s
      else s.take pos ++ repl caps ++
        reSubAllAux f r repl ((s.take (pos + len)).getLast?) (s.drop (pos + len))

/-- Python `re.sub(pattern, repl, s)` for the router's non-empty-match
patterns. -/
def reSubAll (r : RE) (repl : Caps → Chars) (s : Chars) : Chars :=
  reSubAllAux (s.length + 1) r repl none s

/-- Python `re.sub('^anchored', '', s)`: an anchored pattern can only
match at the start, so a single head match is dropped. -/
def subAnchoredDrop (r : RE) (s : Chars) : Chars :=
  match reMatchHead r s with
  | some (len, _) => s.drop len
  | none => s

/- ── Pattern-building combinators ── -/

/-- Literal character. -/
def chrR (c : Char) : RE := .cls (fun x => x == c)

/-- Case-insensitive literal character (argument given lowercase). -/
def chrCI (c : Char) : RE := .cls (fun x => x.toLower == c)

/-- Sequence a list of patterns. -/
def cat (l : List RE) : RE := l.foldr .seq .eps

/-- Case-sensitive literal string. -/
def lit (s : String) : RE := cat (s.data.map chrR)

/-- Case-insensitive literal string. -/
def litCI (s : String) : RE := cat (s.data.map (fun c => chrCI c.toLower))

/-- Left-to-right alternation of a list of patterns. -/
def union1 : List RE → RE
  | [] => .eps
  | [r] => r
  | r :: rest => .alt r (union1 rest)

/-- Pattern `.` (any character but newline). -/
def dotC : RE := .cls (fun c => c != '\n')

/-- Pattern `\d`. -/
def digitC : RE := .cls Char.isDigit

/-- Pattern `\w`. -/
def wordC : RE := .cls (fun c => c.isAlphanum || c == '_')

/-- Pattern `\s`. -/
def wsC : RE := .cls Char.isWhitespace

/-- Pattern `[A-Z]`. -/
def upperC : RE := .cls (fun c => 'A' ≤ c && c ≤ 'Z')

/-- Pattern `[a-z]`. -/
def lowerC : RE := .cls (fun c => 'a' ≤ c && c ≤ 'z')

/-- Pattern `[a-zA-Z]`. -/
def alphaC : RE := .cls (fun c => ('a' ≤ c && c ≤ 'z') || ('A' ≤ c && c ≤ 'Z'))

/-- Pattern `[\w\s]`. -/
def wordOrWsC : RE := .cls (fun c => c.isAlphanum || c == '_' || c.isWhitespace)

/-- Explicit character set, e.g. `[.,!?]`. -/
def setC (cs : Chars) : RE := .cls (fun c => cs.contains c)

/-- Pattern `r+` (greedy when `lzy = false`). -/
def plusR (r : RE) (lzy : Bool) : RE := .seq r (.star r lzy)

/-- Pattern `r{2}`. -/
def rep2 (r : RE) : RE := .seq r r

/-- Pattern `r{1,2}` (greedy). -/
def rep12 (r : RE) : RE := .seq r (.opt r false)


/- ── Pattern transliterations from src/main.py ── -/

/-- Pattern `(?:AM|PM|am|pm)` (case-sensitive alternation as written). -/
def ampmLits : RE := union1 [lit "AM", lit "PM", lit "am", lit "pm"]

/-- Pattern `(\d{1,2}):(\d{2})\s*(?:AM|PM|am|pm)` (shared by `_postprocess_args`
and `_manual_extract` for `set_alarm`). -/
def alarmHM : RE :=
  cat [.grp 1 (rep12 digitC), chrR ':', .grp 2 (rep2 digitC), .star wsC false, ampmLits]

/-- Pattern `\b(\d{1,2})\s*(?:AM|PM|am|pm)` (postprocess hour rule, no trailing
word boundary). -/
def ppAlarmH : RE := cat [.wordB, .grp 1 (rep12 digitC), .star wsC false, ampmLits]

/-- Pattern `\b(\d{1,2})\s*(?:AM|PM|am|pm)\b` (manual-extract hour rule). -/
def meAlarmH : RE := cat [.wordB, .grp 1 (rep12 digitC), .star wsC false, ampmLits, .wordB]

/-- Pattern `\bnoon\b`, IGNORECASE. -/
def noonRE : RE := cat [.wordB, litCI "noon", .wordB]

/-- Pattern `\bmidnight\b`, IGNORECASE. -/
def midnightRE : RE := cat [.wordB, litCI "midnight", .wordB]

/-- Pattern `\b(\d{1,2})\s*o\'?clock\b`, IGNORECASE. -/
def oclockRE : RE :=
  cat [.wordB, .grp 1 (rep12 digitC), .star wsC false, chrCI 'o',
       .opt (chrR '\'') false, litCI "clock", .wordB]

/-- Pattern `(\d+)\s*(?:minute|min)`, IGNORECASE (timer minute rule, shared). -/
def timerMinRE : RE :=
  cat [.grp 1 (plusR digitC false), .star wsC false, union1 [litCI "minute", litCI "min"]]

/-- Pattern `(\d+)\s*(?:hour|hr)`, IGNORECASE (timer hour rule, shared). -/
def timerHrRE : RE :=
  cat [.grp 1 (plusR digitC false), .star wsC false, union1 [litCI "hour", litCI "hr"]]

/-- Pattern `(\d+)\s*(?:second|sec)`, IGNORECASE (timer second rule, shared). -/
def timerSecRE : RE :=
  cat [.grp 1 (plusR digitC false), .star wsC false, union1 [litCI "second", litCI "sec"]]

/-- Pattern `(?:play|put\s+on|listen\s+to)`, IGNORECASE. -/
def playVerb : RE :=
  union1 [litCI "play", cat [litCI "put", plusR wsC false, litCI "on"],
          cat [litCI "listen", plusR wsC false, litCI "to"]]

/-- The 15-verb alternation inside the postprocess music pattern. -/
def action15RE : RE :=
  union1 (["set", "send", "text", "check", "get", "remind", "create", "find",
           "look", "search", "wake", "tell", "put", "listen", "message"].map litCI)

/-- Postprocess music pattern (src/main.py line 123), IGNORECASE:
`(?:play|put\s+on|listen\s+to)\s+(.+?)(?:\s*(?:,\s*(?:and\s+)?(?:...15
verbs...)\b|,\s*and\b|\s+and\s+(?:...15 verbs...)\b|[.,!?]\s*$))`. -/
def ppMusicBig : RE :=
  cat [playVerb, plusR wsC false, .grp 1 (plusR dotC true), .star wsC false,
       union1
         [cat [chrR ',', .star wsC false, .opt (cat [litCI "and", plusR wsC false]) false,
               action15RE, .wordB],
          cat [chrR ',', .star wsC false, litCI "and", .wordB],
          cat [plusR wsC false, litCI "and", plusR wsC false, action15RE, .wordB],
          cat [setC ['.', ',', '!', '?'], .star wsC false, .strEnd]]]

/-- Pattern `(?:play|put\s+on|listen\s+to)\s+(.+?)(?:\s*[.,!?]?\s*$)`, IGNORECASE
(postprocess music fallback). -/
def ppMusicFallback : RE :=
  cat [playVerb, plusR wsC false, .grp 1 (plusR dotC true), .star wsC false,
       .opt (setC ['.', ',', '!', '?']) false, .star wsC false, .strEnd]

/-- Pattern `some\s+(.+?)\s+music$`, IGNORECASE, used with `re.match`. -/
def someMusicRE : RE :=
  cat [litCI "some", plusR wsC false, .grp 1 (plusR dotC true), plusR wsC false,
       litCI "music", .strEnd]

/-- Pattern `some\s+(\w+)\s+music$`, IGNORECASE, used with `re.match`. -/
def someMusicWRE : RE :=
  cat [litCI "some", plusR wsC false, .grp 1 (plusR wordC false), plusR wsC false,
       litCI "music", .strEnd]

/-- Pattern `^some\s+`, IGNORECASE (anchored `re.sub` with empty replacement). -/
def someLeadRE : RE := cat [litCI "some", plusR wsC false]

/-- Pattern `(?:play|put\s+on|listen\s+to)\s+(.+?)(?:\s*[.,!]?\s*$)`, IGNORECASE
(manual-extract music rule; note the class is `[.,!]`). -/
def meMusicRE : RE :=
  cat [playVerb, plusR wsC false, .grp 1 (plusR dotC true), .star wsC false,
       .opt (setC ['.', ',', '!']) false, .star wsC false, .strEnd]

/-- Pattern `remind\s+(?:me\s+)?(?:about|to)\s+` (reminder lead-in), IGNORECASE. -/
def remindLead : RE :=
  cat [litCI "remind", plusR wsC false, .opt (cat [litCI "me", plusR wsC false]) false,
       union1 [litCI "about", litCI "to"], plusR wsC false]

/-- Pattern `reminder\s+(?:for|about|to)\s+` (alternate lead-in), IGNORECASE. -/
def remdrLead : RE :=
  cat [litCI "reminder", plusR wsC false, union1 [litCI "for", litCI "about", litCI "to"],
       plusR wsC false]

/-- Pattern `\d{1,2}:\d{2}\s*(?:AM|PM|am|pm)` (time with minutes). -/
def timeHM : RE := cat [rep12 digitC, chrR ':', rep2 digitC, .star wsC false, ampmLits]

/-- Pattern `\d{1,2}\s*(?:AM|PM|am|pm)` (bare-hour time). -/
def timeH : RE := cat [rep12 digitC, .star wsC false, ampmLits]

/-- Pattern `(?:remind\s+(?:me\s+)?(?:about|to)\s+)(.+?)\s+at\s+(<time with
minutes>)`, IGNORECASE. -/
def remAboutHM : RE :=
  cat [remindLead, .grp 1 (plusR dotC true), plusR wsC false, litCI "at", plusR wsC false,
       .grp 2 timeHM]

/-- Pattern `(?:reminder\s+(?:for|about|to)\s+)(.+?)\s+at\s+(<time with minutes>)`,
IGNORECASE. -/
def remdrHM : RE :=
  cat [remdrLead, .grp 1 (plusR dotC true), plusR wsC false, litCI "at", plusR wsC false,
       .grp 2 timeHM]

/-- Pattern `(?:remind\s+(?:me\s+)?(?:about|to)\s+)(.+?)\s+at\s+(<bare-hour time>)`,
IGNORECASE. -/
def remAboutH : RE :=
  cat [remindLead, .grp 1 (plusR dotC true), plusR wsC false, litCI "at", plusR wsC false,
       .grp 2 timeH]

/-- Pattern `(?:reminder\s+(?:for|about|to)\s+)(.+?)\s+at\s+(<bare-hour time>)`,
IGNORECASE. -/
def remdrH : RE :=
  cat [remdrLead, .grp 1 (plusR dotC true), plusR wsC false, litCI "at", plusR wsC false,
       .grp 2 timeH]

/-- Pattern `^(the|a|an)\s+`, IGNORECASE (anchored article-stripping `re.sub`). -/
def articleRE : RE :=
  cat [.grp 1 (union1 [litCI "the", litCI "a", litCI "an"]), plusR wsC false]

/-- Pattern `(\d+)\s*(AM|PM)` (case-sensitive, used by the `\1:00 \2` sub). -/
def normTimeRE : RE :=
  cat [.grp 1 (plusR digitC false), .star wsC false, .grp 2 (union1 [lit "AM", lit "PM"])]

/-- Replacement `\1:00 \2` for `normTimeRE`. -/
def normTimeRepl (caps : Caps) : Chars :=
  (capGet caps 1).getD [] ++ (":00 ".data) ++ (capGet caps 2).getD []

/-- Pattern `look\s*up`, IGNORECASE. -/
def lookUpStar : RE := cat [litCI "look", .star wsC false, litCI "up"]

/-- Pattern `(?:find|look\s*up|search\s+(?:for\s+)?)\s*(\w+)\s+(?:in\s+)?(?:my\s+)?contact`,
IGNORECASE. -/
def meContact1 : RE :=
  cat [union1 [litCI "find", lookUpStar,
               cat [litCI "search", plusR wsC false, .opt (cat [litCI "for", plusR wsC false]) false]],
       .star wsC false, .grp 1 (plusR wordC false), plusR wsC false,
       .opt (cat [litCI "in", plusR wsC false]) false,
       .opt (cat [litCI "my", plusR wsC false]) false, litCI "contact"]

/-- Pattern `(?:find|look\s*up|search)\s+(\w+?)(?:\'s)?\s+(?:contact|number|phone|info)`,
IGNORECASE. -/
def meContact2 : RE :=
  cat [union1 [litCI "find", lookUpStar, litCI "search"], plusR wsC false,
       .grp 1 (plusR wordC true), .opt (cat [chrR '\'', chrCI 's']) false, plusR wsC false,
       union1 [litCI "contact", litCI "number", litCI "phone", litCI "info"]]

/-- Pattern `(?:find|look\s*up|search\s+for)\s+(\w+)`, IGNORECASE. -/
def meContact3 : RE :=
  cat [union1 [litCI "find", lookUpStar, cat [litCI "search", plusR wsC false, litCI "for"]],
       plusR wsC false, .grp 1 (plusR wordC false)]

/-- Pattern `(?:find|look\s*up|search)\s+(\w+)\s+(?:in\s+)?(?:my\s+)?contacts?`,
IGNORECASE (postprocess contact rule). -/
def ppContactRE : RE :=
  cat [union1 [litCI "find", lookUpStar, litCI "search"], plusR wsC false,
       .grp 1 (plusR wordC false), plusR wsC false,
       .opt (cat [litCI "in", plusR wsC false]) false,
       .opt (cat [litCI "my", plusR wsC false]) false, litCI "contact",
       .opt (chrCI 's') false]

/-- Pattern `(?:\s*[.,!?]?\s*$)` (soft sentence-end tail of the manual rules). -/
def softEnd : RE :=
  cat [.star wsC false, .opt (setC ['.', ',', '!', '?']) false, .star wsC false, .strEnd]

/-- Pattern `(?:send|text)\s+(?:a\s+)?message\s+to\s+(\w+)\s+(?:saying|that)\s+(.+?)(?:\s*[.,!?]?\s*$)`,
IGNORECASE. -/
def meMsg1 : RE :=
  cat [union1 [litCI "send", litCI "text"], plusR wsC false,
       .opt (cat [litCI "a", plusR wsC false]) false, litCI "message", plusR wsC false,
       litCI "to", plusR wsC false, .grp 1 (plusR wordC false), plusR wsC false,
       union1 [litCI "saying", litCI "that"], plusR wsC false, .grp 2 (plusR dotC true),
       softEnd]

/-- Pattern `(?:send|text)\s+(\w+)\s+(?:a\s+)?(?:message\s+)?(?:saying|that)\s+(.+?)(?:\s*[.,!?]?\s*$)`,
IGNORECASE. -/
def meMsg2 : RE :=
  cat [union1 [litCI "send", litCI "text"], plusR wsC false, .grp 1 (plusR wordC false),
       plusR wsC false, .opt (cat [litCI "a", plusR wsC false]) false,
       .opt (cat [litCI "message", plusR wsC false]) false,
       union1 [litCI "saying", litCI "that"], plusR wsC false, .grp 2 (plusR dotC true),
       softEnd]

/-- Pattern `(?:tell)\s+(\w+)\s+(?:that\s+|to\s+)?(.+?)(?:\s*[.,!?]?\s*$)`,
IGNORECASE. -/
def meMsg3 : RE :=
  cat [litCI "tell", plusR wsC false, .grp 1 (plusR wordC false), plusR wsC false,
       .opt (union1 [cat [litCI "that", plusR wsC false], cat [litCI "to", plusR wsC false]]) false,
       .grp 2 (plusR dotC true), softEnd]

/-- Pattern `(?:message)\s+(\w+)\s+(?:saying|that)\s+(.+?)(?:\s*[.,!?]?\s*$)`,
IGNORECASE. -/
def meMsg4 : RE :=
  cat [litCI "message", plusR wsC false, .grp 1 (plusR wordC false), plusR wsC false,
       union1 [litCI "saying", litCI "that"], plusR wsC false, .grp 2 (plusR dotC true),
       softEnd]

/-- The 8-verb alternation inside the postprocess message pattern. -/
def action8RE : RE :=
  union1 (["set", "check", "get", "play", "remind", "find", "look", "search"].map litCI)

/-- Pattern `(?:\s*(?:,\s*(?:and\s+)?(?:...8 verbs...)\b|\s+and\s+(?:...8
verbs...)\b|[.,!?]*$))` (tail of the first two postprocess message
patterns). -/
def ppMsgTail : RE :=
  cat [.star wsC false,
       union1
         [cat [chrR ',', .star wsC false, .opt (cat [litCI "and", plusR wsC false]) false,
               action8RE, .wordB],
          cat [plusR wsC false, litCI "and", plusR wsC false, action8RE, .wordB],
          cat [.star (setC ['.', ',', '!', '?']) false, .strEnd]]]

/-- Postprocess message pattern 1 (line 184), IGNORECASE. -/
def ppMsg1 : RE :=
  cat [union1 [litCI "send", litCI "text"], plusR wsC false,
       .opt (cat [litCI "a", plusR wsC false]) false, litCI "message", plusR wsC false,
       litCI "to", plusR wsC false, .grp 1 (plusR wordC false), plusR wsC false,
       union1 [litCI "saying", litCI "that"], plusR wsC false, .grp 2 (plusR dotC true),
       ppMsgTail]

/-- Postprocess message pattern 2 (line 186), IGNORECASE. -/
def ppMsg2 : RE :=
  cat [union1 [litCI "send", litCI "text"], plusR wsC false, .grp 1 (plusR wordC false),
       plusR wsC false, .opt (cat [litCI "a", plusR wsC false]) false,
       .opt (cat [litCI "message", plusR wsC false]) false,
       union1 [litCI "saying", litCI "that"], plusR wsC false, .grp 2 (plusR dotC true),
       ppMsgTail]

/-- Postprocess message pattern 3 (line 188), IGNORECASE:
`(?:tell)\s+(\w+)\s+(?:that\s+|to\s+)?(.+?)(?:\s*(?:,|\s+and\s+(?:...8
verbs...))\b|[.,!?]*$)`. -/
def ppMsg3 : RE :=
  cat [litCI "tell", plusR wsC false, .grp 1 (plusR wordC false), plusR wsC false,
       .opt (union1 [cat [litCI "that", plusR wsC false], cat [litCI "to", plusR wsC false]]) false,
       .grp 2 (plusR dotC true),
       union1
         [cat [.star wsC false,
               union1 [chrR ',', cat [plusR wsC false, litCI "and", plusR wsC false, action8RE]],
               .wordB],
          cat [.star (setC ['.', ',', '!', '?']) false, .strEnd]]]

/-- The 11-verb alternation inside the postprocess weather pattern. -/
def action11RE : RE :=
  union1 (["set", "send", "text", "play", "remind", "find", "look", "search",
           "check", "get", "wake"].map litCI)

/-- Postprocess weather pattern 1 (line 204), IGNORECASE:
`(?:weather|forecast|temperature)\s+(?:like\s+)?(?:in|for|at)\s+(.+?)(?:\s*(?:,|\s+and\s+(?:...11 verbs...))\s*|[.,!?]*$)`. -/
def ppWeather1 : RE :=
  cat [union1 [litCI "weather", litCI "forecast", litCI "temperature"], plusR wsC false,
       .opt (cat [litCI "like", plusR wsC false]) false,
       union1 [litCI "in", litCI "for", litCI "at"], plusR wsC false,
       .grp 1 (plusR dotC true),
       union1
         [cat [.star wsC false,
               union1 [chrR ',', cat [plusR wsC false, litCI "and", plusR wsC false, action11RE]],
               .star wsC false],
          cat [.star (setC ['.', ',', '!', '?']) false, .strEnd]]]

/-- Postprocess weather fallback (line 206), case-sensitive:
`\b(?:in|for|at)\s+([A-Z][a-zA-Z]+(?:\s+[A-Z][a-zA-Z]+)*)`. -/
def ppWeather2 : RE :=
  cat [.wordB, union1 [lit "in", lit "for", lit "at"], plusR wsC false,
       .grp 1 (cat [upperC, plusR alphaC false,
                    .star (cat [plusR wsC false, upperC, plusR alphaC false]) false])]

/-- Pattern `(?:weather|forecast|temperature)\s+(?:in|for|at|of)\s+(.+?)(?:\s*[.,!?]?\s*$)`,
IGNORECASE. -/
def meWeather1 : RE :=
  cat [union1 [litCI "weather", litCI "forecast", litCI "temperature"], plusR wsC false,
       union1 [litCI "in", litCI "for", litCI "at", litCI "of"], plusR wsC false,
       .grp 1 (plusR dotC true), softEnd]

/-- Pattern `(?:rain|snow|sunny|cold|hot|warm)\s+(?:in|at)\s+(.+?)(?:\s*[.,!?]?\s*$)`,
IGNORECASE. -/
def meWeather2 : RE :=
  cat [union1 [litCI "rain", litCI "snow", litCI "sunny", litCI "cold", litCI "hot",
               litCI "warm"], plusR wsC false, union1 [litCI "in", litCI "at"],
       plusR wsC false, .grp 1 (plusR dotC true), softEnd]

/-- Pattern `(?:in|for|at)\s+([A-Z][\w\s]*?)(?:\s*[.,!?]?\s*$)` (case-sensitive). -/
def meWeather3 : RE :=
  cat [union1 [lit "in", lit "for", lit "at"], plusR wsC false,
       .grp 1 (cat [upperC, .star wordOrWsC true]), softEnd]

/-- Pattern `(?:in|for|at)\s+(.+?)(?:\s*[.,!?]?\s*$)`, IGNORECASE. -/
def meWeather4 : RE :=
  cat [union1 [litCI "in", litCI "for", litCI "at"], plusR wsC false,
       .grp 1 (plusR dotC true), softEnd]

/-- Pattern `\b[A-Z][a-z]+\b` (capitalized words, for pronoun resolution). -/
def properNounRE : RE := cat [.wordB, upperC, plusR lowerC false, .wordB]

/-- Pattern `\d{4}-\d{2}-\d{2}T(\d{2}):(\d{2}):\d{2}` (ISO timestamp, `re.match`). -/
def isoRE : RE :=
  cat [rep2 (rep2 digitC), chrR '-', rep2 digitC, chrR '-', rep2 digitC, chrR 'T',
       .grp 1 (rep2 digitC), chrR ':', .grp 2 (rep2 digitC), chrR ':', rep2 digitC]

/- ── `_TOOL_KEYWORDS` patterns (matched against lowercased text) ── -/

/-- Keyword patterns for `get_weather`. -/
def kwWeather : List RE :=
  [cat [.wordB, lit "weather", .wordB],
   cat [.wordB, lit "forecast", .wordB],
   cat [.wordB, lit "temperature", .wordB],
   cat [.wordB, .grp 1 (union1 [lit "rain", lit "snow", lit "sunny", lit "cloudy"]),
        .wordB, .star dotC false, .wordB, lit "in", .wordB],
   cat [.wordB, lit "how", plusR wsC false,
        .grp 1 (union1 [lit "hot", lit "cold", lit "warm"]), .wordB]]

/-- Keyword patterns for `set_alarm`. -/
def kwAlarm : List RE :=
  [cat [.wordB, lit "alarm", .wordB],
   cat [.wordB, lit "wake", plusR wsC false, .grp 1 (union1 [lit "me", lit "up"]), .wordB]]

/-- Keyword patterns for `send_message`. -/
def kwMessage : List RE :=
  [cat [.wordB, .grp 1 (union1 [lit "send", lit "text"]), .wordB, .star dotC false,
        .wordB, .grp 2 (union1 [lit "message", lit "saying", lit "say", lit "that"]), .wordB],
   cat [.wordB, lit "text", plusR wsC false, plusR wordC false],
   cat [.wordB, lit "tell", plusR wsC false, plusR wordC false, plusR wsC false,
        .grp 1 (union1 [lit "that", lit "to"]), .wordB],
   cat [.wordB, .grp 1 (union1 [lit "send", lit "text"]), plusR wsC false, plusR wordC false,
        plusR wsC false, .grp 2 (union1 [lit "saying", lit "that"]), .wordB],
   cat [.wordB, lit "message", plusR wsC false, plusR wordC false, .wordB]]

/-- Keyword patterns for `create_reminder`. -/
def kwReminder : List RE :=
  [cat [.wordB, lit "remind", .wordB], cat [.wordB, lit "reminder", .wordB]]

/-- Keyword patterns for `search_contacts`. -/
def kwContacts : List RE :=
  [cat [.wordB, .grp 1 (union1 [lit "find", cat [lit "look", .star wsC false, lit "up"],
                                lit "search"]),
        .wordB, .star dotC false, .wordB, lit "contact"],
   cat [.wordB, lit "contact", .star wsC false,
        .grp 1 (union1 [lit "info", lit "number", lit "detail"])],
   cat [.wordB, .grp 1 (union1 [lit "find", cat [lit "look", .star wsC false, lit "up"]]),
        plusR wsC false, plusR wordC false, plusR wsC false, lit "in", plusR wsC false]]

/-- Keyword patterns for `play_music`. -/
def kwMusic : List RE :=
  [cat [.wordB, lit "play", .wordB],
   cat [.wordB, lit "put", plusR wsC false, lit "on", .wordB],
   cat [.wordB, lit "listen", plusR wsC false, lit "to", .wordB]]

/-- Keyword patterns for `set_timer`. -/
def kwTimer : List RE :=
  [cat [.wordB, lit "timer", .wordB],
   cat [.wordB, plusR digitC false, .star wsC false, lit "min"],
   cat [.wordB, plusR digitC false, .star wsC false, lit "minute"],
   cat [.wordB, lit "countdown", .wordB]]

/-- The `_TOOL_KEYWORDS` mapping in source (insertion) order. -/
def _TOOL_KEYWORDS : List (String × List RE) :=
  [("get_weather", kwWeather), ("set_alarm", kwAlarm), ("send_message", kwMessage),
   ("create_reminder", kwReminder), ("search_contacts", kwContacts),
   ("play_music", kwMusic), ("set_timer", kwTimer)]

/- ── `_count_intents` action patterns (IGNORECASE) ── -/

/-- Pattern `\b(set\s+(an?\s+)?alarm|wake\s+me)\b`. -/
def ciAlarm : RE :=
  cat [.wordB,
       .grp 1 (union1
         [cat [litCI "set", plusR wsC false,
               .opt (.grp 2 (cat [litCI "a", .opt (chrCI 'n') false, plusR wsC false])) false,
               litCI "alarm"],
          cat [litCI "wake", plusR wsC false, litCI "me"]]),
       .wordB]

/-- Pattern `\b(?:set\s+(?:a\s+)?)?(?:\d+\s*(?:minute|min|hour|hr|second|sec)\w*\s+)?timer\b`. -/
def ciTimer : RE :=
  cat [.wordB,
       .opt (cat [litCI "set", plusR wsC false, .opt (cat [litCI "a", plusR wsC false]) false]) false,
       .opt (cat [plusR digitC false, .star wsC false,
                  union1 [litCI "minute", litCI "min", litCI "hour", litCI "hr",
                          litCI "second", litCI "sec"],
                  .star wordC false, plusR wsC false]) false,
       litCI "timer", .wordB]

/-- Pattern `\b(send|text)\s+(?:a\s+)?(?:message\s+)?\w+`. -/
def ciMessage : RE :=
  cat [.wordB, .grp 1 (union1 [litCI "send", litCI "text"]), plusR wsC false,
       .opt (cat [litCI "a", plusR wsC false]) false,
       .opt (cat [litCI "message", plusR wsC false]) false, plusR wordC false]

/-- Pattern `\b(check|get|what\'?s?|how\'?s?)\s+(the\s+)?weather\b`. -/
def ciWeather : RE :=
  cat [.wordB,
       .grp 1 (union1
         [litCI "check", litCI "get",
          cat [litCI "what", .opt (chrR '\'') false, .opt (chrCI 's') false],
          cat [litCI "how", .opt (chrR '\'') false, .opt (chrCI 's') false]]),
       plusR wsC false, .opt (.grp 2 (cat [litCI "the", plusR wsC false])) false,
       litCI "weather", .wordB]

/-- Pattern `\b(play|put\s+on|listen\s+to)\s+`. -/
def ciMusic : RE :=
  cat [.wordB,
       .grp 1 (union1 [litCI "play", cat [litCI "put", plusR wsC false, litCI "on"],
                       cat [litCI "listen", plusR wsC false, litCI "to"]]),
       plusR wsC false]

/-- Pattern `\b(remind|create\s+a?\s*reminder)\b`. -/
def ciReminder : RE :=
  cat [.wordB,
       .grp 1 (union1
         [litCI "remind",
          cat [litCI "create", plusR wsC false, .opt (chrCI 'a') false, .star wsC false,
               litCI "reminder"]]),
       .wordB]

/-- Pattern `\b(find|look\s+up|search)\b.*\b(contacts?|for)\b`. -/
def ciContacts : RE :=
  cat [.wordB,
       .grp 1 (union1 [litCI "find", cat [litCI "look", plusR wsC false, litCI "up"],
                       litCI "search"]),
       .wordB, .star dotC false, .wordB,
       .grp 2 (union1 [cat [litCI "contact", .opt (chrCI 's') false], litCI "for"]),
       .wordB]

/-- Pattern `\b(tell)\s+\w+\s+(that|to)\b`. -/
def ciTell : RE :=
  cat [.wordB, .grp 1 (litCI "tell"), plusR wsC false, plusR wordC false, plusR wsC false,
       .grp 2 (union1 [litCI "that", litCI "to"]), .wordB]

/-- The `action_patterns` list of `_count_intents` in source order. -/
def intentPatterns : List RE :=
  [ciAlarm, ciTimer, ciMessage, ciWeather, ciMusic, ciReminder, ciContacts, ciTell]

/- ── `_split_into_atomic` patterns ── -/

/-- Pattern `(?:set|send|text|check|get|what|play|remind|create|find|look|search|wake|tell|put|listen|message)`
(the `action_start` alternation). -/
def actionStart17 : RE :=
  union1 (["set", "send", "text", "check", "get", "what", "play", "remind", "create",
           "find", "look", "search", "wake", "tell", "put", "listen", "message"].map litCI)

/-- Pattern `,\s+and\s+`, IGNORECASE (split pattern 1). -/
def spCommaAnd : RE := cat [chrR ',', plusR wsC false, litCI "and", plusR wsC false]

/-- Pattern `\s+and\s+(?=<action_start>[\s])`, IGNORECASE (split pattern 2). -/
def spAndAction : RE :=
  cat [plusR wsC false, litCI "and", plusR wsC false, .look (cat [actionStart17, wsC])]

/-- Pattern `[.!]\s+(?:also|then|and\s+also|and\s+then)\s+`, IGNORECASE (split
pattern 3). -/
def spSentence : RE :=
  cat [setC ['.', '!'], plusR wsC false,
       union1 [litCI "also", litCI "then", cat [litCI "and", plusR wsC false, litCI "also"],
               cat [litCI "and", plusR wsC false, litCI "then"]],
       plusR wsC false]

/-- Pattern `\s+and\s+also\s+`, IGNORECASE (split pattern 4). -/
def spAndAlso : RE :=
  cat [plusR wsC false, litCI "and", plusR wsC false, litCI "also", plusR wsC false]

/-- Pattern `,\s+(?=<action_start>[\s])`, IGNORECASE (comma-action expansion). -/
def spCommaAction : RE :=
  cat [chrR ',', plusR wsC false, .look (cat [actionStart17, wsC])]

/-- Pattern `\s+and\s+`, IGNORECASE (last-resort split). -/
def spAnd : RE := cat [plusR wsC false, litCI "and", plusR wsC false]

/- ── Pipeline functions (src/main.py) ── -/

/-- Function `_clean_arg`: strip whitespace, trailing punctuation and quotes,
normalize internal whitespace, render ISO timestamps as `H:MM AM/PM`. -/
def _clean_arg (v : JVal) : JVal :=
  match v with
  | .jstr s =>
    let l := pyStrip s.data
    let l := pyRstripSet ['.', '!', ',', ';', ':'] l
    let l := pyStripSet ['\'', '"'] l
    let l := joinSpace (wsSplit l)
    match reMatchHead isoRE l with
    | some (_, caps) =>
      let hour := listToNat ((capGet caps 1).getD [])
      let minute := listToNat ((capGet caps 2).getD [])
      let ampm : Chars := if hour < 12 then ['A', 'M'] else ['P', 'M']
      let dh := if hour ≤ 12 then hour else hour - 12
      let dh := if dh == 0 then 12 else dh
      if minute == 0 then .jstr (String.mk (natChars dh ++ (":00 ".data) ++ ampm))
      else .jstr (String.mk (natChars dh ++ ':' :: (pad2 minute ++ ' ' :: ampm)))
    | none => .jstr (String.mk l)
  | v => v

/-- The `hour`/`minute`/`minutes` type coercion of `_postprocess_args`:
a string value becomes `int(float(value))` when that parses (Python floats
are already folded to `jint` in this embedding, so the `float` branch is
subsumed). -/
def coerceKey (args : Args) (k : String) : Args :=
  match dget args k with
  | some (.jstr s) =>
    match parseFloatTrunc s.data with
    | some n => dset args k (.jint n)
    | none => args
  | _ => args

/-- Pronoun recipients recognized by the router. -/
def pronounWords : List String := ["him", "her", "them", "he", "she", "they"]

/-- The action-verb exclusion list of the `_postprocess_args` pronoun
resolution (13 words). -/
def ppExcludeWords : List String :=
  ["set", "send", "find", "check", "play", "remind", "text", "look", "search",
   "wake", "what", "how", "tell"]

/-- Capitalized non-action words of a text, in order — the
`_postprocess_args` variant of proper-noun extraction. -/
def ppProperNouns (t : Chars) : List String :=
  ((reFindAll properNounRE t).filter
    (fun w => !(ppExcludeWords.contains (String.mk (lowerChars w))))).map String.mk

/-- Recipient stop-words of the message rules. -/
def msgStopWords : List String := ["a", "the", "an", "my"]

/-- The `set_alarm` branch of `_postprocess_args`: always re-extract the
alarm time from the user text, coerce `hour`/`minute`, default a missing
or null `minute` to 0. -/
def ppAlarmB (user_text : String) (args : Args) : Args :=
  let text := user_text.data
  let args :=
    if user_text != "" then
      match reSearch alarmHM text with
      | some (_, _, caps) =>
        dset (dset args "hour" (.jint (listToNat ((capGet caps 1).getD []))))
             "minute" (.jint (listToNat ((capGet caps 2).getD [])))
      | none =>
        match reSearch ppAlarmH text with
        | some (_, _, caps) =>
          dset (dset args "hour" (.jint (listToNat ((capGet caps 1).getD []))))
               "minute" (.jint 0)
        | none =>
          if reTest noonRE text then dset (dset args "hour" (.jint 12)) "minute" (.jint 0)
          else if reTest midnightRE text then
            dset (dset args "hour" (.jint 0)) "minute" (.jint 0)
          else args
    else args
  let args := coerceKey args "hour"
  let args := coerceKey args "minute"
  match dget args "minute" with
  | none => dset args "minute" (.jint 0)
  | some .jnull => dset args "minute" (.jint 0)
  | some _ => args

/-- The `play_music` branch of `_postprocess_args`. -/
def ppMusicB (user_text : String) (args : Args) : Args :=
  let text := user_text.data
  if user_text != "" then
    let m := match reSearch ppMusicBig text with
      | some r => some r
      | none => reSearch ppMusicFallback text
    match m with
    | some (_, _, caps) =>
      let extracted := pyRstripSet ['.', ',', '!', '?'] (pyStrip ((capGet caps 1).getD []))
      let extracted := match reMatchHead someMusicRE extracted with
        | some (_, caps2) => (capGet caps2 1).getD []
        | none => extracted
      dset args "song" (.jstr (String.mk extracted))
    | none => args
  else
    let song := match dget args "song" with
      | some (.jstr s) => s.data
      | _ => []
    match reMatchHead someMusicWRE song with
    | some (_, caps2) => dset args "song" (.jstr (String.mk ((capGet caps2 1).getD [])))
    | none => args

/-- The `set_timer` branch of `_postprocess_args`: minute rule, hour rule
(times 60), second rule (floor-divided by 60, minimum 1), then coercion. -/
def ppTimerB (user_text : String) (args : Args) : Args :=
  let text := user_text.data
  let args :=
    if user_text != "" then
      match searchNat timerMinRE text with
      | some d => dset args "minutes" (.jint d)
      | none =>
        match searchNat timerHrRE text with
        | some d => dset args "minutes" (.jint (d * 60))
        | none =>
          match searchNat timerSecRE text with
          | some d => dset args "minutes" (.jint (max 1 (d / 60)))
          | none => args
    else args
  coerceKey args "minutes"

/-- The `create_reminder` branch of `_postprocess_args`. -/
def ppReminderB (user_text : String) (args : Args) : Args :=
  let text := user_text.data
  let m := match reSearch remAboutHM text with
    | some r => some r
    | none => reSearch remAboutH text
  match m with
  | some (_, _, caps) =>
    let title := subAnchoredDrop articleRE (pyStrip ((capGet caps 1).getD []))
    let timeStr := upperChars (pyStrip ((capGet caps 2).getD []))
    let timeStr :=
      if timeStr.contains ':' then timeStr else reSubAll normTimeRE normTimeRepl timeStr
    dset (dset args "title" (.jstr (String.mk title))) "time" (.jstr (String.mk timeStr))
  | none => args

/-- The `search_contacts` branch of `_postprocess_args`. -/
def ppContactB (user_text : String) (args : Args) : Args :=
  match reSearch ppContactRE user_text.data with
  | some (_, _, caps) => dset args "query" (.jstr (String.mk ((capGet caps 1).getD [])))
  | none => args

/-- The `send_message` branch of `_postprocess_args`, including its
pronoun resolution against the 13-word exclusion list. -/
def ppMsgB (user_text : String) (args : Args) : Args :=
  let text := user_text.data
  let m := match reSearch ppMsg1 text with
    | some r => some r
    | none =>
      match reSearch ppMsg2 text with
      | some r => some r
      | none => reSearch ppMsg3 text
  match m with
  | some (_, _, caps) =>
    let recipient := (capGet caps 1).getD []
    let msg := pyRstripSet ['.', ',', '!', '?'] (pyStrip ((capGet caps 2).getD []))
    let recipient :=
      if pronounWords.contains (String.mk (lowerChars recipient)) then
        match ppProperNouns text with
        | p :: _ => p.data
        | [] => recipient
      else recipient
    if msgStopWords.contains (String.mk (lowerChars recipient)) then args
    else
      dset (dset args "recipient" (.jstr (String.mk recipient)))
           "message" (.jstr (String.mk msg))
  | none => args

/-- The `get_weather` branch of `_postprocess_args`. -/
def ppWeatherB (user_text : String) (args : Args) : Args :=
  let text := user_text.data
  let m := match reSearch ppWeather1 text with
    | some r => some r
    | none => reSearch ppWeather2 text
  match m with
  | some (_, _, caps) =>
    let location := pyRstripSet ['.', ',', '!', '?'] (pyStrip ((capGet caps 1).getD []))
    if 1 < location.length then dset args "location" (.jstr (String.mk location)) else args
  | none => args

/-- The generic numeric-string coercion applied to every argument value
at the end of `_postprocess_args`. -/
def coerceNumStr (v : JVal) : JVal :=
  match v with
  | .jstr s =>
    if isDigits s.data ||
       (1 < s.data.length && s.data.head? == some '-' && isDigits s.data.tail) then
      .jint (strToIntLit s.data)
    else .jstr s
  | v => v

/-- Function `_postprocess_args`: repair a call's arguments from the originating
text (regex wins over model values), then coerce numeric-looking strings.
Non-string values where Python would raise (e.g. `.lower()` on an int)
are left unchanged. -/
def _postprocess_args (call : FunctionCall) (user_text : String) : FunctionCall :=
  let name := call.name
  let args := call.arguments
  let args := if name == "set_alarm" then ppAlarmB user_text args else args
  let args := if name == "play_music" then ppMusicB user_text args else args
  let args := if name == "set_timer" then ppTimerB user_text args else args
  let args :=
    if name == "create_reminder" && user_text != "" then ppReminderB user_text args else args
  let args :=
    if name == "search_contacts" && user_text != "" then ppContactB user_text args else args
  let args :=
    if name == "send_message" && user_text != "" then ppMsgB user_text args else args
  let args :=
    if name == "get_weather" && user_text != "" then ppWeatherB user_text args else args
  ⟨name, args.map (fun kv => (kv.1, coerceNumStr kv.2))⟩


/-- Function `_clean_calls`: clean every argument value, then postprocess each
call against the originating text. -/
def _clean_calls (calls : List FunctionCall) (user_text : String) : List FunctionCall :=
  calls.map (fun call =>
    _postprocess_args ⟨call.name, call.arguments.map (fun kv => (kv.1, _clean_arg kv.2))⟩
      user_text)

/-- Function `_pick_best_tool`: keyword narrowing; returns the singleton matching
tool when exactly one known tool's patterns fire, else all tools. -/
def _pick_best_tool (text : String) (tools : List Tool) : List Tool :=
  let lowered := lowerChars text.data
  let toolNames := tools.map Tool.name
  let matched := _TOOL_KEYWORDS.filterMap (fun kw =>
    if toolNames.contains kw.1 then
      if kw.2.any (fun p => reTest p lowered) then some kw.1 else none
    else none)
  match matched with
  | [tn] => tools.filter (fun t => t.name == tn)
  | _ => tools

/-- Manual extraction rule set for `play_music`. -/
def meMusic (t : Chars) : Option FunctionCall :=
  match reSearch meMusicRE t with
  | none => none
  | some (_, _, caps) =>
    let song := pyStrip ((capGet caps 1).getD [])
    let song := match reMatchHead someMusicRE song with
      | some (_, caps2) => (capGet caps2 1).getD []
      | none => subAnchoredDrop someLeadRE song
    some ⟨"play_music", [("song", .jstr (String.mk song))]⟩

/-- Manual extraction rule set for `get_weather`. -/
def meWeather (t : Chars) : Option FunctionCall :=
  let m := match reSearch meWeather1 t with
    | some r => some r
    | none =>
      match reSearch meWeather2 t with
      | some r => some r
      | none =>
        match reSearch meWeather3 t with
        | some r => some r
        | none => reSearch meWeather4 t
  match m with
  | some (_, _, caps) =>
    let loc := pyStrip ((capGet caps 1).getD [])
    if 1 < loc.length then some ⟨"get_weather", [("location", .jstr (String.mk loc))]⟩
    else none
  | none => none

/-- Manual extraction rule set for `set_timer`. -/
def meTimer (t : Chars) : Option FunctionCall :=
  match searchNat timerMinRE t with
  | some d => some ⟨"set_timer", [("minutes", .jint d)]⟩
  | none =>
    match searchNat timerHrRE t with
    | some d => some ⟨"set_timer", [("minutes", .jint (d * 60))]⟩
    | none =>
      match searchNat timerSecRE t with
      | some d => some ⟨"set_timer", [("minutes", .jint (max 1 (d / 60)))]⟩
      | none => none

/-- Manual extraction rule set for `set_alarm`. -/
def meAlarm (t : Chars) : Option FunctionCall :=
  match reSearch alarmHM t with
  | some (_, _, caps) =>
    some ⟨"set_alarm", [("hour", .jint (listToNat ((capGet caps 1).getD []))),
                        ("minute", .jint (listToNat ((capGet caps 2).getD [])))]⟩
  | none =>
    match reSearch meAlarmH t with
    | some (_, _, caps) =>
      some ⟨"set_alarm", [("hour", .jint (listToNat ((capGet caps 1).getD []))),
                          ("minute", .jint 0)]⟩
    | none =>
      if reTest noonRE t then some ⟨"set_alarm", [("hour", .jint 12), ("minute", .jint 0)]⟩
      else if reTest midnightRE t then
        some ⟨"set_alarm", [("hour", .jint 0), ("minute", .jint 0)]⟩
      else
        match searchNat oclockRE t with
        | some d => some ⟨"set_alarm", [("hour", .jint d), ("minute", .jint 0)]⟩
        | none => none

/-- Manual extraction rule set for `create_reminder`. -/
def meReminder (t : Chars) : Option FunctionCall :=
  let m := match reSearch remAboutHM t with
    | some r => some r
    | none =>
      match reSearch remdrHM t with
      | some r => some r
      | none =>
        match reSearch remAboutH t with
        | some r => some r
        | none => reSearch remdrH t
  match m with
  | some (_, _, caps) =>
    let title := subAnchoredDrop articleRE (pyStrip ((capGet caps 1).getD []))
    let timeStr := upperChars (pyStrip ((capGet caps 2).getD []))
    let timeStr :=
      if timeStr.contains ':' then timeStr else reSubAll normTimeRE normTimeRepl timeStr
    some ⟨"create_reminder", [("title", .jstr (String.mk title)),
                              ("time", .jstr (String.mk timeStr))]⟩
  | none => none

/-- Query stop-words of the contact rules. -/
def contactStopWords : List String :=
  ["the", "a", "an", "my", "his", "her", "their", "some", "all"]

/-- Manual extraction rule set for `search_contacts`. -/
def meContacts (t : Chars) : Option FunctionCall :=
  let m := match reSearch meContact1 t with
    | some r => some r
    | none =>
      match reSearch meContact2 t with
      | some r => some r
      | none => reSearch meContact3 t
  match m with
  | some (_, _, caps) =>
    let query := (capGet caps 1).getD []
    if contactStopWords.contains (String.mk (lowerChars query)) then none
    else some ⟨"search_contacts", [("query", .jstr (String.mk query))]⟩
  | none => none

/-- Manual extraction rule set for `send_message` (no pronoun resolution
here — that happens later in `generate_hybrid` / `_postprocess_args`). -/
def meMessage (t : Chars) : Option FunctionCall :=
  let m := match reSearch meMsg1 t with
    | some r => some r
    | none =>
      match reSearch meMsg2 t with
      | some r => some r
      | none =>
        match reSearch meMsg3 t with
        | some r => some r
        | none => reSearch meMsg4 t
  match m with
  | some (_, _, caps) =>
    let recipient := (capGet caps 1).getD []
    let msg := pyRstripSet ['.', ',', '!', '?'] (pyStrip ((capGet caps 2).getD []))
    if msgStopWords.contains (String.mk (lowerChars recipient)) then none
    else some ⟨"send_message", [("recipient", .jstr (String.mk recipient)),
                                ("message", .jstr (String.mk msg))]⟩
  | none => none

/-- Function `_manual_extract`: per-tool regex extraction; `none` when no rule of
the requested tool matches or the tool has no rule set. -/
def _manual_extract (text : String) (tool_name : String) : Option FunctionCall :=
  let t := text.data
  if tool_name == "play_music" then meMusic t
  else if tool_name == "get_weather" then meWeather t
  else if tool_name == "set_timer" then meTimer t
  else if tool_name == "set_alarm" then meAlarm t
  else if tool_name == "create_reminder" then meReminder t
  else if tool_name == "search_contacts" then meContacts t
  else if tool_name == "send_message" then meMessage t
  else none

/-- Function `_count_intents`: number of action patterns that fire, floored at 1. -/
def _count_intents (text : String) : Nat :=
  max (intentPatterns.countP (fun p => reTest p text.data)) 1

/-- Function `_split_into_atomic`: prioritized splitting cascade; returns the
original text as a singleton on failure. -/
def _split_into_atomic (text : String) : List String :=
  let t := text.data
  let parts := reSplit spCommaAnd t
  let parts := if parts.length == 1 then reSplit spAndAction t else parts
  let parts := if parts.length == 1 then reSplit spSentence t else parts
  let parts := if parts.length == 1 then reSplit spAndAlso t else parts
  let parts := parts.flatMap (fun p => reSplit spCommaAction p)
  let parts :=
    if parts.length == 1 && decide (2 ≤ _count_intents text) then reSplit spAnd t else parts
  let cleaned := (parts.map (fun p => pyRstripSet ['.'] (pyStrip p))).filter
    (fun p => 3 < p.length)
  if 1 < cleaned.length then cleaned.map String.mk else [text]

/-- Function `_validate_call`: name known, every required argument present, string
requirements non-blank after stripping. -/
def _validate_call (call : FunctionCall) (tools : List Tool) : Bool :=
  if !((tools.map Tool.name).contains call.name) then false
  else
    match tools.find? (fun t => t.name == call.name) with
    | none => false
    | some tool =>
      tool.required.all (fun req =>
        match dget call.arguments req with
        | none => false
        | some (.jstr s) => !(pyStrip s.data).isEmpty
        | some _ => true)

/-- Function `_local_is_good`: the Local-Result Acceptance Policy. -/
def _local_is_good (res : LocalResult) (tools : List Tool) : Bool :=
  if res.cloud_handoff then false
  else if res.function_calls.isEmpty then false
  else if (res.function_calls.filter (fun c => _validate_call c tools)).isEmpty then false
  else if res.confidence < Rat.divInt 15 100 then false
  else true

/- ── Orchestrator (`generate_hybrid`) ── -/

/-- The action-word exclusion list used by `generate_hybrid`'s
proper-noun collection (18 words). -/
def hybridExcludeWords : List String :=
  ["set", "send", "find", "check", "play", "remind", "text", "look", "search",
   "wake", "what", "how", "tell", "put", "listen", "message", "also", "then"]

/-- Proper nouns of the full text used by the multi-intent path for
pronoun resolution. -/
def properNounsOf (text : String) : List String :=
  ((reFindAll properNounRE text.data).filter
    (fun w => !(hybridExcludeWords.contains (String.mk (lowerChars w))))).map String.mk

/-- The pronoun-resolution step `generate_hybrid` applies to
`send_message` calls: replace a pronoun recipient by the first collected
proper noun when one exists.  (A non-string recipient would raise in
Python; it is left unchanged here.) -/
def _fix_pronoun (properNouns : List String) (c : FunctionCall) : FunctionCall :=
  if c.name == "send_message" then
    let r := match dget c.arguments "recipient" with
      | some (.jstr s) => s
      | _ => ""
    match properNouns with
    | [] => c
    | p :: _ =>
      if pronounWords.contains (String.mk (lowerChars r.data)) then
        ⟨c.name, dset c.arguments "recipient" (.jstr p)⟩
      else c
  else c

/-- The `user_text` scan of `generate_hybrid`: content of the last user
message (empty when there is none). -/
def lastUserText (messages : List Message) : String :=
  messages.foldl (fun acc m => if m.role == "user" then m.content else acc) ""

/-- Outcome of the per-part loop of the multi-intent path. -/
structure PartsOut where
  calls : List FunctionCall
  time : Rat
  all_good : Bool
  k : Nat

/-- The per-part loop of the multi-intent path: narrow tools, ask the
on-device adapter, validate-and-postprocess on acceptance, fall back to
manual extraction, abort the whole loop when both fail for a part. -/
def processParts (o : Oracles) (tools : List Tool) (properNouns : List String) :
    List String → Nat → PartsOut
  | [], k => ⟨[], 0, true, k⟩
  | part :: rest, k =>
    let filtered := _pick_best_tool part tools
    let bestName : Option String := match filtered with
      | [f] => some f.name
      | _ => none
    let locr := o.localA k [⟨"user", part⟩] filtered
    let failOut : PartsOut := ⟨[], locr.total_time_ms, false, k + 1⟩
    let manualPath : PartsOut :=
      match bestName with
      | some n =>
        if n == "" then failOut
        else
          match _manual_extract part n with
          | some man =>
            if _validate_call man tools then
              let res := processParts o tools properNouns rest (k + 1)
              ⟨_fix_pronoun properNouns man :: res.calls, locr.total_time_ms + res.time,
               res.all_good, res.k⟩
            else failOut
          | none => failOut
      | none => failOut
    if _local_is_good locr tools then
      let valid := locr.function_calls.filter (fun c => _validate_call c tools)
      if !valid.isEmpty then
        let fixedv := (valid.map (fun v => _postprocess_args v part)).map
          (_fix_pronoun properNouns)
        let res := processParts o tools properNouns rest (k + 1)
        ⟨fixedv ++ res.calls, locr.total_time_ms + res.time, res.all_good, res.k⟩
      else manualPath
    else manualPath

/-- The cloud-supplement step: for atomic parts whose pre-filtered tool
is missing from the cloud response, append a manual extraction.  The
name set is computed once, from the cloud response only. -/
def backfill (base : List FunctionCall) (parts : List String) (tools : List Tool)
    (properNouns : List String) : List FunctionCall :=
  let returnedNames := base.map FunctionCall.name
  base ++ parts.filterMap (fun part =>
    match _pick_best_tool part tools with
    | [t] =>
      if returnedNames.contains t.name then none
      else
        match _manual_extract part t.name with
        | some man =>
          if _validate_call man tools then some (_fix_pronoun properNouns man) else none
        | none => none
    | _ => none)

/-- Everything `generate_hybrid` does before cleaning/deduplication:
the gathered calls, accumulated adapter time, the cloud flag, and the
log of message lists passed to the cloud adapter. -/
structure GatherOut where
  calls : List FunctionCall
  time : Rat
  used_cloud : Bool
  cloudLog : List (List Message)

/-- The routing core of `generate_hybrid` (single/multi paths, adapter
calls, fallbacks), instrumented with the list of cloud invocations. -/
def gather (o : Oracles) (messages : List Message) (tools : List Tool) : GatherOut :=
  let user_text := lastUserText messages
  let intent_count := _count_intents user_text
  if 2 ≤ intent_count then
    let atomic_parts := _split_into_atomic user_text
    if atomic_parts.length < 2 then
      let locr := o.localA 0 messages tools
      if _local_is_good locr tools then
        ⟨locr.function_calls.filter (fun c => _validate_call c tools),
         locr.total_time_ms, false, []⟩
      else
        let cl := o.cloudA 0 messages tools
        ⟨cl.function_calls, locr.total_time_ms + cl.total_time_ms, true, [messages]⟩
    else
      let properNouns := properNounsOf user_text
      let res := processParts o tools properNouns atomic_parts 0
      if res.all_good && !res.calls.isEmpty then ⟨res.calls, res.time, false, []⟩
      else
        let cl := o.cloudA 0 messages tools
        let withFill :=
          if cl.function_calls.length < atomic_parts.length then
            backfill cl.function_calls atomic_parts tools properNouns
          else cl.function_calls
        ⟨withFill, res.time + cl.total_time_ms, true, [messages]⟩
  else
    let filtered_tools := _pick_best_tool user_text tools
    let bestName : Option String := match filtered_tools with
      | [f] => some f.name
      | _ => none
    let locr := o.localA 0 messages filtered_tools
    if _local_is_good locr tools then
      ⟨locr.function_calls.filter (fun c => _validate_call c tools),
       locr.total_time_ms, false, []⟩
    else
      let manual := match bestName with
        | some n => if n == "" then none else _manual_extract user_text n
        | none => none
      let retryPath : GatherOut :=
        let locr2 := o.localA 1 messages filtered_tools
        if _local_is_good locr2 tools then
          ⟨locr2.function_calls.filter (fun c => _validate_call c tools),
           locr.total_time_ms + locr2.total_time_ms, false, []⟩
        else
          let cl := o.cloudA 0 messages tools
          ⟨cl.function_calls, locr.total_time_ms + locr2.total_time_ms + cl.total_time_ms,
           true, [messages]⟩
      match manual with
      | some man => if _validate_call man tools then ⟨[man], locr.total_time_ms, false, []⟩
                    else retryPath
      | none => retryPath

/-- Lexicographic order on character lists (Python string order for the
key sort of `json.dumps(..., sort_keys=True)`). -/
def strLeb : Chars → Chars → Bool
  | [], _ => true
  | _ :: _, [] => false
  | a :: as1, b :: bs => if a < b then true else if b < a then false else strLeb as1 bs

/-- Insert into an argument list sorted by key. -/
def insertByKey (p : String × JVal) : Args → Args
  | [] => [p]
  | q :: rest =>
    if strLeb p.1.data q.1.data then p :: q :: rest else q :: insertByKey p rest

/-- Sort arguments by key (the canonical form behind
`json.dumps(arguments, sort_keys=True)`; on unique keys the sorted pair
list determines the JSON text and conversely). -/
def sortArgs : Args → Args
  | [] => []
  | p :: rest => insertByKey p (sortArgs rest)

/-- The dedup key `(name, canonical-JSON-of-arguments-with-keys-sorted)`. -/
def dedupKey (c : FunctionCall) : String × Args := (c.name, sortArgs c.arguments)

/-- The dedup loop of `generate_hybrid` (`seen` set plus ordered output). -/
def dedupAux : List (String × Args) → List FunctionCall → List FunctionCall
  | _, [] => []
  | seen, c :: rest =>
    if dedupKey c ∈ seen then dedupAux seen rest
    else c :: dedupAux (dedupKey c :: seen) rest

/-- The Deduplicator: keep the first call of each dedup key, in order. -/
def dedupCalls (calls : List FunctionCall) : List FunctionCall := dedupAux [] calls

/-- Function `generate_hybrid`: route messages to function calls.  Returns the
`RouteResult` together with the instrumentation log of cloud-adapter
invocations (the message lists passed to `generate_cloud`). -/
def generate_hybrid (o : Oracles) (messages : List Message) (tools : List Tool) :
    RouteResult × List (List Message) :=
  let g := gather o messages tools
  let user_text := lastUserText messages
  let cleaned := _clean_calls g.calls user_text
  let deduped := dedupCalls cleaned
  (⟨deduped, g.time, if g.used_cloud then "cloud (fallback)" else "on-device",
    if g.used_cloud then 0 else 1⟩, g.cloudLog)

/- ── Specification-side definition and sample inputs ── -/

/-- Validity of a call relative to a tool-schema set, written from the
spec's words (data model and Validator sections): the name matches a
known tool and every entry in that tool's required list is present in the
arguments with a non-blank value (strings must have non-whitespace
content after trimming).  Compared against `_validate_call` below. -/
def specValidCall (call : FunctionCall) (tools : List Tool) : Prop :=
  ∃ t ∈ tools, t.name = call.name ∧
    ∀ r ∈ t.required, ∃ v, dget call.arguments r = some v ∧
      ∀ s, v = JVal.jstr s → pyStrip s.data ≠ []

/-- A hard-failing on-device behaviour (decode failure signal). -/
def oFailLocal : LocalResult := ⟨[], 0, 0, true⟩

/-- A cloud behaviour answering with a call naming an unknown tool. -/
def oBogusCloud : CloudResult := ⟨[⟨"bogus", []⟩], 0⟩

/-- Adapter behaviour: the on-device model always fails, the cloud
returns the unknown-tool call. -/
def oracleFail : Oracles := ⟨fun _ _ _ => oFailLocal, fun _ _ _ => oBogusCloud⟩

/-- An accepting on-device behaviour returning one schema-valid call. -/
def oOkLocal : LocalResult := ⟨[⟨"t", [("x", .jint 1)]⟩], 0, 1, false⟩

/-- Adapter behaviour: the on-device model immediately succeeds. -/
def oracleOk : Oracles := ⟨fun _ _ _ => oOkLocal, fun _ _ _ => oBogusCloud⟩

/-- A minimal message list. -/
def msgsHi : List Message := [⟨"user", "hi"⟩]

/-- A single custom tool `t` requiring argument `x`. -/
def toolsT : List Tool := [⟨"t", ["x"]⟩]

/-- A call whose arguments are given in one key order. -/
def sampleDupA : FunctionCall := ⟨"a", [("x", .jint 1), ("y", .jstr "z")]⟩

/-- The same call with its argument keys in the other order (same dedup
key after canonical sorting). -/
def sampleDupB : FunctionCall := ⟨"a", [("y", .jstr "z"), ("x", .jint 1)]⟩

/-- A structurally different call. -/
def sampleOther : FunctionCall := ⟨"b", []⟩

/- ── Dictionary lemmas ── -/

theorem dget_dset_self (a : Args) (k : String) (v : JVal) : dget (dset a k v) k = some v := by
  induction a with
  | nil => simp [dget, dset]
  | cons p rest ih =>
    by_cases h : p.1 == k
    · simp [dget, dset, h]
    · simp [dget, dset, h, ih]

theorem dget_map_val (f : JVal → JVal) (a : Args) (k : String) :
    dget (a.map (fun kv => (kv.1, f kv.2))) k = (dget a k).map f := by
  induction a with
  | nil => simp [dget]
  | cons p rest ih =>
    by_cases h : p.1 == k <;> simp [dget, h, ih]

theorem coerceKey_of_jint (a : Args) (k : String) (n : Int)
    (h : dget a k = some (.jint n)) : coerceKey a k = a := by
  unfold coerceKey
  rw [h]

/- ── Claim C2 ── -/

/-- C2: on source text "Set an alarm for 10 AM", the Argument
Post-processor's output for a `set_alarm` call whose model-claimed
arguments are {hour: 3, minute: 9} is exactly {hour: 10, minute: 0} —
the deterministic regex extraction from the originating text overrides
the model's argument values. -/
theorem C2_alarm_regex_overrides_model :
    _postprocess_args ⟨"set_alarm", [("hour", .jint 3), ("minute", .jint 9)]⟩
      "Set an alarm for 10 AM" =
      ⟨"set_alarm", [("hour", .jint 10), ("minute", .jint 0)]⟩ := by decide

/- ── Claim C5 ── -/

/-- C5: the Atomic Decomposer does not split
"Send a message to Alice saying hello and goodbye." — it returns the
single-element list containing the original text, because the " and "
lies inside the message body and is not followed by a recognized action
verb. -/
theorem C5_message_body_not_split :
    _split_into_atomic "Send a message to Alice saying hello and goodbye." =
      ["Send a message to Alice saying hello and goodbye."] := by decide

/- ── Claim C4 ── -/

/-- C4 counterexample: the single send-message phrase
"Send a message to Bob saying tell Mary that hi" is counted as TWO
intents, because both messaging patterns (`send/text ...` and
`tell <name> that/to`) fire on it, while no non-messaging pattern does.
This falsifies both "each category contributes at most 1" and "a single
send/text ... saying/message phrase is never counted as more than one
intent". -/
theorem C4_counterexample :
    _count_intents "Send a message to Bob saying tell Mary that hi" = 2 ∧
    reTest ciMessage "Send a message to Bob saying tell Mary that hi".data = true ∧
    reTest ciTell "Send a message to Bob saying tell Mary that hi".data = true ∧
    reTest ciAlarm "Send a message to Bob saying tell Mary that hi".data = false ∧
    reTest ciTimer "Send a message to Bob saying tell Mary that hi".data = false ∧
    reTest ciWeather "Send a message to Bob saying tell Mary that hi".data = false ∧
    reTest ciMusic "Send a message to Bob saying tell Mary that hi".data = false ∧
    reTest ciReminder "Send a message to Bob saying tell Mary that hi".data = false ∧
    reTest ciContacts "Send a message to Bob saying tell Mary that hi".data = false := by
  decide

/-- C4 (amended): each of the eight action patterns contributes at most 1
to the Intent Counter no matter how often it matches, so for every input
the result lies between 1 (the floor) and 8; but messaging is covered by
two separate patterns (send/text and tell), which can both fire on a
single send-message phrase whose body contains "tell <name> that/to". -/
theorem C4_amended_intent_count_bounds (text : String) :
    1 ≤ _count_intents text ∧ _count_intents text ≤ 8 := by
  unfold _count_intents
  refine ⟨le_max_right _ _, max_le ?_ (by norm_num)⟩
  have h := List.countP_le_length (p := fun p => reTest p text.data) (l := intentPatterns)
  have hlen : intentPatterns.length = 8 := rfl
  omega

/- ── Claim C3 ── -/

/-- C3 counterexample: the Deterministic Manual Extractor's message rule
captures the pronominal recipient "her" and returns it verbatim — the
extractor itself performs no pronoun replacement, so the call it returns
can carry a bare pronoun as recipient. -/
theorem C3_counterexample :
    _manual_extract "Send a message to her saying call me back" "send_message" =
      some ⟨"send_message",
            [("recipient", .jstr "her"), ("message", .jstr "call me back")]⟩ ∧
    pronounWords.contains "her" = true := by decide

/-- C3 (amended): pronoun replacement is not done by the extractor but by
`generate_hybrid`'s resolution step: for a `send_message` call whose
recipient is a pronoun, the recipient is replaced by the first
capitalized word of the full original text that is not an excluded
action word whenever such a word exists, and is left as the bare pronoun
otherwise. -/
theorem C3_amended_pronoun_resolution (text : String) (c : FunctionCall) (r : String)
    (h1 : c.name = "send_message")
    (h2 : dget c.arguments "recipient" = some (.jstr r))
    (h3 : pronounWords.contains (String.mk (lowerChars r.data)) = true) :
    (properNounsOf text = [] → _fix_pronoun (properNounsOf text) c = c) ∧
    (∀ p ps, properNounsOf text = p :: ps →
      _fix_pronoun (properNounsOf text) c =
        ⟨c.name, dset c.arguments "recipient" (.jstr p)⟩) := by
  constructor
  · intro h
    unfold _fix_pronoun
    rw [h]
    simp [h1]
  · intro p ps h
    have h4 : String.mk (lowerChars r.data) ∈ pronounWords := by simpa using h3
    unfold _fix_pronoun
    rw [h, h2]
    simp [h1, h4]

/-- C3 witness: applying the resolution theorem on Scenario-3-style data:
with full text "Look up Maria in my contacts and send her a message
saying call me back", the pronoun recipient "her" resolves to "Maria". -/
theorem C3_amended_witness :
    _fix_pronoun
        (properNounsOf "Look up Maria in my contacts and send her a message saying call me back")
        ⟨"send_message", [("recipient", .jstr "her"), ("message", .jstr "call me back")]⟩ =
      ⟨"send_message", [("recipient", .jstr "Maria"), ("message", .jstr "call me back")]⟩ := by
  have h := C3_amended_pronoun_resolution
    "Look up Maria in my contacts and send her a message saying call me back"
    ⟨"send_message", [("recipient", .jstr "her"), ("message", .jstr "call me back")]⟩
    "her" rfl (by decide) (by decide)
  have h2 := h.2 "Maria" [] (by decide)
  simpa using h2

/- ── Claim C1 ── -/

/-- C1 counterexample: with the on-device adapter failing hard and the
cloud adapter answering a call whose name matches no supplied tool,
`generate_hybrid` emits that invalid call unchanged — the Validator does
not filter cloud-fallback calls, so not every emitted call is valid
relative to the supplied tool-schema set. -/
theorem C1_counterexample :
    (generate_hybrid oracleFail msgsHi toolsT).1.function_calls = [⟨"bogus", []⟩] ∧
    _validate_call ⟨"bogus", []⟩ toolsT = false := by decide

/-- C1 (amended): validation happens when calls are collected on the
local paths, not after post-processing and not on the cloud path: on the
single-intent path, when the first on-device result is accepted, every
gathered call passes the Validator.  (Cloud-returned calls are emitted
without validation, and the Argument Post-processor may still rewrite
arguments after this check.) -/
theorem C1_amended_local_calls_validated (o : Oracles) (messages : List Message)
    (tools : List Tool)
    (h1 : _count_intents (lastUserText messages) < 2)
    (h2 : _local_is_good
      (o.localA 0 messages (_pick_best_tool (lastUserText messages) tools)) tools = true) :
    ∀ c ∈ (gather o messages tools).calls, _validate_call c tools = true := by
  intro c hc
  simp only [gather] at hc
  rw [if_neg (by omega)] at hc
  rw [if_pos h2] at hc
  simp only [List.mem_filter] at hc
  exact hc.2

/-- C1 witness: the amended theorem applied to a concrete accepting
on-device behaviour. -/
theorem C1_amended_witness :
    _validate_call ⟨"t", [("x", .jint 1)]⟩ toolsT = true :=
  C1_amended_local_calls_validated oracleOk msgsHi toolsT (by decide) (by decide)
    ⟨"t", [("x", .jint 1)]⟩ (by decide)

/- ── Claim C7 ── -/

theorem gather_cloudLog (o : Oracles) (messages : List Message) (tools : List Tool) :
    (gather o messages tools).cloudLog = [] ∨
    (gather o messages tools).cloudLog = [messages] := by
  simp only [gather]
  repeat' split
  all_goals first | exact Or.inl rfl | exact Or.inr rfl

/-- C7: in every execution of `generate_hybrid` (any adapter behaviour,
messages and tools), the cloud adapter is invoked at most once, and every
invocation receives the complete original message list, never a
decomposed atomic fragment. -/
theorem C7_cloud_at_most_once_full_messages (o : Oracles) (messages : List Message)
    (tools : List Tool) :
    (generate_hybrid o messages tools).2.length ≤ 1 ∧
    ∀ ms ∈ (generate_hybrid o messages tools).2, ms = messages := by
  have hlog : (generate_hybrid o messages tools).2 = (gather o messages tools).cloudLog := rfl
  rw [hlog]
  rcases gather_cloudLog o messages tools with h | h <;> rw [h] <;> simp

/-- C7 witness: on a concrete run that does fall back to the cloud, the
logged invocation indeed carries the original message list. -/
theorem C7_witness :
    (generate_hybrid oracleFail msgsHi toolsT).2.length ≤ 1 ∧
    ([⟨"user", "hi"⟩] : List Message) = msgsHi :=
  ⟨(C7_cloud_at_most_once_full_messages oracleFail msgsHi toolsT).1,
   (C7_cloud_at_most_once_full_messages oracleFail msgsHi toolsT).2
     [⟨"user", "hi"⟩] (by decide)⟩

/- ── Claim C6 ── -/

/-- C6: the Validator is total and decides validity exactly by the
spec's formula: a call is accepted iff its name is a known tool and
every required parameter of that tool is a key of the arguments whose
value, when a string, has non-whitespace content after trimming
(non-strings are accepted by presence alone).  Tool names are assumed
unique, as the data model requires. -/
theorem C6_validator_decides_spec_formula (call : FunctionCall) (tools : List Tool)
    (hnodup : (tools.map Tool.name).Nodup) :
    _validate_call call tools = true ↔ specValidCall call tools := by
  constructor
  · intro h
    unfold _validate_call at h
    split at h
    · simp at h
    · split at h
      · simp at h
      · rename_i tool hfind
        have htmem := List.mem_of_find?_eq_some hfind
        have htname : tool.name = call.name := by simpa using List.find?_some hfind
        refine ⟨tool, htmem, htname, ?_⟩
        intro r hr
        have hp := (List.all_eq_true.mp h) r hr
        rcases hv : dget call.arguments r with _ | v
        · rw [hv] at hp
          simp at hp
        · refine ⟨v, rfl, ?_⟩
          intro s hs
          subst hs
          rw [hv] at hp
          simpa using hp
  · rintro ⟨t, ht, hname, hreq⟩
    unfold _validate_call
    have hcont : (tools.map Tool.name).contains call.name = true := by
      rw [List.elem_iff]
      exact hname ▸ List.mem_map_of_mem Tool.name ht
    rw [hcont]
    rcases hfind : tools.find? (fun t2 => t2.name == call.name) with _ | tool
    · exfalso
      have hn := List.find?_eq_none.mp hfind t ht
      simp [hname] at hn
    · have htmem := List.mem_of_find?_eq_some hfind
      have htname : tool.name = call.name := by simpa using List.find?_some hfind
      have heq : t = tool :=
        List.inj_on_of_nodup_map hnodup ht htmem (by rw [hname, htname])
      subst heq
      simp only [Bool.not_true, Bool.false_eq_true, if_false]
      rw [hfind]
      show t.required.all _ = true
      rw [List.all_eq_true]
      intro r hr
      obtain ⟨v, hv, hstr⟩ := hreq r hr
      show (match dget call.arguments r with
            | none => false
            | some (.jstr s) => !(pyStrip s.data).isEmpty
            | some _ => true) = true
      rw [hv]
      cases v with
      | jstr s => simpa using hstr s rfl
      | jint n => rfl
      | jbool b => rfl
      | jnull => rfl

/-- C6 witness: the equivalence applied to a concrete call and tool set
(hypothesis: the tool-name list has no duplicates). -/
theorem C6_witness : specValidCall ⟨"t", [("x", .jint 1)]⟩ toolsT :=
  (C6_validator_decides_spec_formula ⟨"t", [("x", .jint 1)]⟩ toolsT (by decide)).mp (by decide)

/- ── Claim C9 ── -/

/-- C9: the timer extraction rules convert units exactly as specified,
in both the Deterministic Manual Extractor and the Argument
Post-processor: digits before "minute(s)"/"min" are taken as-is; failing
that, digits before "hour" are multiplied by 60; failing that, digits
before "second" are floor-divided by 60 with a minimum result of 1. -/
theorem C9_timer_unit_conversions (text : String) (args : Args) :
    (∀ d, searchNat timerMinRE text.data = some d →
      _manual_extract text "set_timer" = some ⟨"set_timer", [("minutes", .jint d)]⟩) ∧
    (searchNat timerMinRE text.data = none → ∀ d, searchNat timerHrRE text.data = some d →
      _manual_extract text "set_timer" =
        some ⟨"set_timer", [("minutes", .jint (d * 60))]⟩) ∧
    (searchNat timerMinRE text.data = none → searchNat timerHrRE text.data = none →
      ∀ d, searchNat timerSecRE text.data = some d →
      _manual_extract text "set_timer" =
        some ⟨"set_timer", [("minutes", .jint (max 1 (d / 60)))]⟩) ∧
    (text ≠ "" → ∀ d, searchNat timerMinRE text.data = some d →
      dget (_postprocess_args ⟨"set_timer", args⟩ text).arguments "minutes" =
        some (.jint d)) ∧
    (text ≠ "" → searchNat timerMinRE text.data = none →
      ∀ d, searchNat timerHrRE text.data = some d →
      dget (_postprocess_args ⟨"set_timer", args⟩ text).arguments "minutes" =
        some (.jint (d * 60))) ∧
    (text ≠ "" → searchNat timerMinRE text.data = none →
      searchNat timerHrRE text.data = none →
      ∀ d, searchNat timerSecRE text.data = some d →
      dget (_postprocess_args ⟨"set_timer", args⟩ text).arguments "minutes" =
        some (.jint (max 1 (d / 60)))) := by
  have hpp : _postprocess_args ⟨"set_timer", args⟩ text =
      ⟨"set_timer", (ppTimerB text args).map (fun kv => (kv.1, coerceNumStr kv.2))⟩ := rfl
  refine ⟨?_, ?_, ?_, ?_, ?_, ?_⟩
  · intro d hd
    show meTimer text.data = _
    unfold meTimer
    rw [hd]
  · intro h0 d hd
    show meTimer text.data = _
    unfold meTimer
    rw [h0, hd]
  · intro h0 h1 d hd
    show meTimer text.data = _
    unfold meTimer
    rw [h0, h1, hd]
  · intro htext d hd
    have h1 : ppTimerB text args = coerceKey (dset args "minutes" (.jint d)) "minutes" := by
      simp only [ppTimerB]
      rw [if_pos (bne_iff_ne.mpr htext), hd]
    rw [hpp]
    show dget ((ppTimerB text args).map _) "minutes" = _
    rw [dget_map_val, h1, coerceKey_of_jint _ _ _ (dget_dset_self _ _ _), dget_dset_self]
    rfl
  · intro htext h0 d hd
    have h1 : ppTimerB text args =
        coerceKey (dset args "minutes" (.jint (d * 60))) "minutes" := by
      simp only [ppTimerB]
      rw [if_pos (bne_iff_ne.mpr htext), h0, hd]
    rw [hpp]
    show dget ((ppTimerB text args).map _) "minutes" = _
    rw [dget_map_val, h1, coerceKey_of_jint _ _ _ (dget_dset_self _ _ _), dget_dset_self]
    rfl
  · intro htext h0 h1x d hd
    have h1 : ppTimerB text args =
        coerceKey (dset args "minutes" (.jint (max 1 (d / 60)))) "minutes" := by
      simp only [ppTimerB]
      rw [if_pos (bne_iff_ne.mpr htext), h0, h1x, hd]
    rw [hpp]
    show dget ((ppTimerB text args).map _) "minutes" = _
    rw [dget_map_val, h1, coerceKey_of_jint _ _ _ (dget_dset_self _ _ _), dget_dset_self]
    rfl

/-- C9 witness: "Set a timer for 90 seconds" has no minute or hour match,
and its 90 seconds floor-divide to 1 minute, in both extraction sites. -/
theorem C9_witness :
    _manual_extract "Set a timer for 90 seconds" "set_timer" =
      some ⟨"set_timer", [("minutes", .jint 1)]⟩ ∧
    dget (_postprocess_args ⟨"set_timer", [("minutes", .jint 99)]⟩
        "Set a timer for 90 seconds").arguments "minutes" = some (.jint 1) := by
  constructor
  · have h := (C9_timer_unit_conversions "Set a timer for 90 seconds" []).2.2.1
      (by decide) (by decide) 90 (by decide)
    simpa using h
  · have h := (C9_timer_unit_conversions "Set a timer for 90 seconds"
      [("minutes", .jint 99)]).2.2.2.2.2 (by decide) (by decide) (by decide) 90 (by decide)
    simpa using h

/- ── Claim C10 ── -/

theorem meMusic_shape (t : Chars) (c : FunctionCall) (h : meMusic t = some c) :
    c.name = "play_music" ∧ c.arguments ≠ [] := by
  unfold meMusic at h
  repeat' split at h
  all_goals try simp_all
  all_goals repeat' split at h
  all_goals try simp_all
  all_goals (first | (rw [← h]; exact ⟨rfl, by simp⟩) | (rw [← h.2]; exact ⟨rfl, by simp⟩))

theorem meWeather_shape (t : Chars) (c : FunctionCall) (h : meWeather t = some c) :
    c.name = "get_weather" ∧ c.arguments ≠ [] := by
  unfold meWeather at h
  repeat' split at h
  all_goals try simp_all
  all_goals repeat' split at h
  all_goals try simp_all
  all_goals (first | (rw [← h]; exact ⟨rfl, by simp⟩) | (rw [← h.2]; exact ⟨rfl, by simp⟩))

theorem meTimer_shape (t : Chars) (c : FunctionCall) (h : meTimer t = some c) :
    c.name = "set_timer" ∧ c.arguments ≠ [] := by
  unfold meTimer at h
  repeat' split at h
  all_goals try simp_all
  all_goals repeat' split at h
  all_goals try simp_all
  all_goals (first | (rw [← h]; exact ⟨rfl, by simp⟩) | (rw [← h.2]; exact ⟨rfl, by simp⟩))

theorem meAlarm_shape (t : Chars) (c : FunctionCall) (h : meAlarm t = some c) :
    c.name = "set_alarm" ∧ c.arguments ≠ [] := by
  unfold meAlarm at h
  repeat' split at h
  all_goals try simp_all
  all_goals repeat' split at h
  all_goals try simp_all
  all_goals (first | (rw [← h]; exact ⟨rfl, by simp⟩) | (rw [← h.2]; exact ⟨rfl, by simp⟩))

theorem meReminder_shape (t : Chars) (c : FunctionCall) (h : meReminder t = some c) :
    c.name = "create_reminder" ∧ c.arguments ≠ [] := by
  unfold meReminder at h
  repeat' split at h
  all_goals try simp_all
  all_goals repeat' split at h
  all_goals try simp_all
  all_goals (first | (rw [← h]; exact ⟨rfl, by simp⟩) | (rw [← h.2]; exact ⟨rfl, by simp⟩))

theorem meContacts_shape (t : Chars) (c : FunctionCall) (h : meContacts t = some c) :
    c.name = "search_contacts" ∧ c.arguments ≠ [] := by
  unfold meContacts at h
  repeat' split at h
  all_goals try simp_all
  all_goals repeat' split at h
  all_goals try simp_all
  all_goals (first | (rw [← h]; exact ⟨rfl, by simp⟩) | (rw [← h.2]; exact ⟨rfl, by simp⟩))

theorem meMessage_shape (t : Chars) (c : FunctionCall) (h : meMessage t = some c) :
    c.name = "send_message" ∧ c.arguments ≠ [] := by
  unfold meMessage at h
  repeat' split at h
  all_goals try simp_all
  all_goals repeat' split at h
  all_goals try simp_all
  all_goals (first | (rw [← h]; exact ⟨rfl, by simp⟩) | (rw [← h.2]; exact ⟨rfl, by simp⟩))

/-- C10: for every text fragment and tool name, the Deterministic Manual
Extractor returns either nothing or exactly one call whose name equals
the requested tool name and whose argument mapping is non-empty — it
never fabricates a call for a different tool nor an empty argument set. -/
theorem C10_extractor_never_fabricates (text tool_name : String) (c : FunctionCall)
    (h : _manual_extract text tool_name = some c) :
    c.name = tool_name ∧ c.arguments ≠ [] := by
  unfold _manual_extract at h
  split_ifs at h with h1 h2 h3 h4 h5 h6 h7
  · obtain rfl : tool_name = "play_music" := beq_iff_eq.mp h1
    exact meMusic_shape _ _ h
  · obtain rfl : tool_name = "get_weather" := beq_iff_eq.mp h2
    exact meWeather_shape _ _ h
  · obtain rfl : tool_name = "set_timer" := beq_iff_eq.mp h3
    exact meTimer_shape _ _ h
  · obtain rfl : tool_name = "set_alarm" := beq_iff_eq.mp h4
    exact meAlarm_shape _ _ h
  · obtain rfl : tool_name = "create_reminder" := beq_iff_eq.mp h5
    exact meReminder_shape _ _ h
  · obtain rfl : tool_name = "search_contacts" := beq_iff_eq.mp h6
    exact meContacts_shape _ _ h
  · obtain rfl : tool_name = "send_message" := beq_iff_eq.mp h7
    exact meMessage_shape _ _ h

/-- C10 witness: the shape theorem applied to a concrete extraction. -/
theorem C10_witness :
    (⟨"play_music", [("song", .jstr "Bohemian Rhapsody")]⟩ : FunctionCall).name =
      "play_music" ∧
    (⟨"play_music", [("song", .jstr "Bohemian Rhapsody")]⟩ : FunctionCall).arguments ≠ [] :=
  C10_extractor_never_fabricates "Play Bohemian Rhapsody." "play_music"
    ⟨"play_music", [("song", .jstr "Bohemian Rhapsody")]⟩ (by decide)

/- ── Claim C8 ── -/

theorem dedupAux_sublist (l : List FunctionCall) :
    ∀ seen, (dedupAux seen l).Sublist l := by
  induction l with
  | nil => intro seen; simp [dedupAux]
  | cons c rest ih =>
    intro seen
    unfold dedupAux
    split
    · exact (ih seen).cons c
    · exact (ih (dedupKey c :: seen)).cons₂ c

theorem dedupAux_key_notin_seen (l : List FunctionCall) :
    ∀ seen c, c ∈ dedupAux seen l → dedupKey c ∉ seen := by
  induction l with
  | nil => intro seen c hc; simp [dedupAux] at hc
  | cons d rest ih =>
    intro seen c hc
    unfold dedupAux at hc
    split at hc
    · exact ih seen c hc
    · rcases List.mem_cons.mp hc with rfl | hc2
      · assumption
      · intro hmem
        exact ih _ c hc2 (List.mem_cons_of_mem _ hmem)

theorem dedupAux_nodup_keys (l : List FunctionCall) :
    ∀ seen, ((dedupAux seen l).map dedupKey).Nodup := by
  induction l with
  | nil => intro seen; simp [dedupAux]
  | cons d rest ih =>
    intro seen
    unfold dedupAux
    split
    · exact ih seen
    · simp only [List.map_cons, List.nodup_cons]
      refine ⟨?_, ih _⟩
      intro hmem
      rcases List.mem_map.mp hmem with ⟨c, hc, hkey⟩
      have hni := dedupAux_key_notin_seen rest _ c hc
      exact hni (by rw [hkey]; exact List.mem_cons_self _ _)

theorem dedupAux_first_occurrence (l : List FunctionCall) :
    ∀ seen c, c ∈ dedupAux seen l →
      l.find? (fun d => decide (dedupKey d = dedupKey c)) = some c := by
  induction l with
  | nil => intro seen c hc; simp [dedupAux] at hc
  | cons d rest ih =>
    intro seen c hc
    unfold dedupAux at hc
    split at hc
    · rename_i hin
      have hne : dedupKey d ≠ dedupKey c := by
        intro heq
        exact (dedupAux_key_notin_seen rest seen c hc) (heq ▸ hin)
      rw [List.find?_cons_of_neg _ (by simp [hne])]
      exact ih seen c hc
    · rename_i hnotin
      rcases List.mem_cons.mp hc with rfl | hc2
      · rw [List.find?_cons_of_pos _ (by simp)]
      · have hne : dedupKey d ≠ dedupKey c := by
          intro heq
          have hni := dedupAux_key_notin_seen rest _ c hc2
          exact hni (by rw [← heq]; exact List.mem_cons_self _ _)
        rw [List.find?_cons_of_neg _ (by simp [hne])]
        exact ih _ c hc2

theorem dedupAux_keys_complete (l : List FunctionCall) :
    ∀ seen k, (∃ c ∈ l, dedupKey c = k) →
      k ∈ seen ∨ ∃ c ∈ dedupAux seen l, dedupKey c = k := by
  induction l with
  | nil =>
    rintro seen k ⟨c, hc, -⟩
    simp at hc
  | cons d rest ih =>
    rintro seen k ⟨c, hc, hk⟩
    unfold dedupAux
    split
    · rename_i hin
      rcases List.mem_cons.mp hc with rfl | hc2
      · left; rw [← hk]; exact hin
      · exact ih seen k ⟨c, hc2, hk⟩
    · rcases List.mem_cons.mp hc with rfl | hc2
      · right; exact ⟨c, List.mem_cons_self _ _, hk⟩
      · rcases ih (dedupKey d :: seen) k ⟨c, hc2, hk⟩ with hmem | ⟨c2, hc2x, hk2⟩
        · rcases List.mem_cons.mp hmem with rfl | hmem2
          · right; exact ⟨d, List.mem_cons_self _ _, rfl⟩
          · left; exact hmem2
        · right; exact ⟨c2, List.mem_cons_of_mem _ hc2x, hk2⟩

theorem dedupAux_of_nodup (m : List FunctionCall) :
    ∀ seen, ((m.map dedupKey).Nodup) → (∀ c ∈ m, dedupKey c ∉ seen) →
      dedupAux seen m = m := by
  induction m with
  | nil => intro seen _ _; rfl
  | cons d rest ih =>
    intro seen hnd hdisj
    unfold dedupAux
    rw [if_neg (hdisj d (List.mem_cons_self _ _))]
    congr 1
    apply ih
    · simp only [List.map_cons, List.nodup_cons] at hnd
      exact hnd.2
    · intro c hc hmem
      rcases List.mem_cons.mp hmem with heq | hmem2
      · simp only [List.map_cons, List.nodup_cons] at hnd
        exact hnd.1 (List.mem_map.mpr ⟨c, hc, heq⟩)
      · exact hdisj c (List.mem_cons_of_mem _ hc) hmem2

/-- C8: the Deduplicator keeps, for every distinct dedup key
(name, arguments with keys canonically sorted), exactly the first call
bearing that key: its output is a subsequence of the input (order of
first appearance preserved), output keys are pairwise distinct, every
kept call is the first input call of its key, no key is lost, and the
Deduplicator is idempotent. -/
theorem C8_dedup_first_occurrence_idempotent (l : List FunctionCall) :
    (dedupCalls l).Sublist l ∧
    ((dedupCalls l).map dedupKey).Nodup ∧
    (∀ c ∈ dedupCalls l, l.find? (fun d => decide (dedupKey d = dedupKey c)) = some c) ∧
    (∀ k, (∃ c ∈ l, dedupKey c = k) ↔ ∃ c ∈ dedupCalls l, dedupKey c = k) ∧
    dedupCalls (dedupCalls l) = dedupCalls l := by
  refine ⟨dedupAux_sublist l [], dedupAux_nodup_keys l [], ?_, ?_, ?_⟩
  · intro c hc
    exact dedupAux_first_occurrence l [] c hc
  · intro k
    constructor
    · intro hex
      rcases dedupAux_keys_complete l [] k hex with h | h
      · simp at h
      · exact h
    · rintro ⟨c, hc, hk⟩
      exact ⟨c, (dedupAux_sublist l []).subset hc, hk⟩
  · exact dedupAux_of_nodup (dedupCalls l) [] (dedupAux_nodup_keys l [])
      (by intro c hc; simp)

/-- C8 witness: two calls differing only in argument-key order collapse
to the first occurrence, which the theorem certifies as the first call of
that dedup key. -/
theorem C8_witness :
    dedupCalls [sampleDupA, sampleOther, sampleDupB] = [sampleDupA, sampleOther] ∧
    [sampleDupA, sampleOther, sampleDupB].find?
      (fun d => decide (dedupKey d = dedupKey sampleDupA)) = some sampleDupA :=
  ⟨by decide,
   (C8_dedup_first_occurrence_idempotent [sampleDupA, sampleOther, sampleDupB]).2.2.1
     sampleDupA (by decide)⟩
